import Mathlib

/-!
# wsl-notify-send: configuration validation, dispatch and exit-code classification

A shallow embedding of the Go sources `main.go`, `cmd/root.go`,
`internal/config/config.go` and `internal/notify/notify.go`.

Conventions of the embedding:

* Go strings are Lean `String`s; `strings.Contains` is substring search on the
  character lists (all markers the program searches for are ASCII).
* A Go `error` is a `GoError`; the `nil` error is `none` of `Option GoError`.
* `float64` is the IEEE-754 binary64 triple (sign, exponent, mantissa), so NaN,
  the infinities and both zeros are values of the type.
* Go `int` is `Int`; the program only compares it with constants.
* The filesystem and the notification backend are explicit parameters.
-/

namespace GoStd

/-! ## Strings -/

/-- Substring search on character lists: `sub` occurs in `s` at some offset. -/
def containsChars : List Char → List Char → Bool
  | [], sub => sub.isPrefixOf []
  | c :: t, sub => sub.isPrefixOf (c :: t) || containsChars t sub

/-- Go `strings.Contains(s, substr)`. -/
def strings_Contains (s substr : String) : Bool :=
  containsChars s.data substr.data

/-- Some non-empty tail of `p` agrees with `sub` as far as both reach, so that
an occurrence of `sub` could begin inside `p` and run past its end. -/
def overlaps : List Char → List Char → Bool
  | [], _ => false
  | c :: p, sub => sub.isPrefixOf (c :: p) || (c :: p).isPrefixOf sub || overlaps p sub

/-! ## Errors -/

/-- Go error values as the program builds them: `errors.New(s)` and
`fmt.Errorf("...: %w", err)`, which stores the formatted message together with
the wrapped error. -/
inductive GoError where
  | errorString (s : String)
  | wrapError (msg : String) (err : GoError)
  deriving DecidableEq, Repr

/-- The method `Error()`. -/
def GoError.Error : GoError → String
  | .errorString s => s
  | .wrapError msg _ => msg

/-- The method `Unwrap()` as `errors.Unwrap` sees it. -/
def GoError.Unwrap : GoError → Option GoError
  | .errorString _ => none
  | .wrapError _ err => some err

/-- Go `errors.New(text)`. -/
def errors_New (text : String) : GoError := .errorString text

/-- Go `fmt.Errorf(pre + "%w", err)` for a format that is a literal text
followed by a single `%w` verb. -/
def fmt_Errorf_w (pre : String) (err : GoError) : GoError :=
  .wrapError (pre ++ err.Error) err

/-! ## float64 -/

/-- An IEEE-754 binary64 value by its three fields: sign bit, 11-bit biased
exponent, 52-bit mantissa. Every inhabitant is a `float64`. -/
structure Float64 where
  sign : Bool
  exponent : Fin 2048
  mantissa : Fin (2 ^ 52)
  deriving DecidableEq

/-- The value is a NaN: exponent all ones, mantissa non-zero. -/
def Float64.isNaN (f : Float64) : Bool :=
  f.exponent.val == 2047 && f.mantissa.val != 0

/-- The value is `+0` or `-0`. -/
def Float64.isZero (f : Float64) : Bool :=
  f.exponent.val == 0 && f.mantissa.val == 0

/-- The sign-magnitude integer of a value: IEEE-754 orders the non-NaN values
as it orders these integers (both zeros give 0). -/
def Float64.key (f : Float64) : Int :=
  if f.sign then -((f.exponent.val : Int) * 2 ^ 52 + f.mantissa.val)
  else (f.exponent.val : Int) * 2 ^ 52 + f.mantissa.val

/-- Go `a <= b` on `float64`: false as soon as one side is NaN. -/
def Float64.le (a b : Float64) : Bool :=
  !a.isNaN && !b.isNaN && decide (a.key ≤ b.key)

/-- Go `a < b` on `float64`: false as soon as one side is NaN. -/
def Float64.lt (a b : Float64) : Bool :=
  !a.isNaN && !b.isNaN && decide (a.key < b.key)

/-- The constant `0` converted to `float64`. -/
def Float64.cZero : Float64 := ⟨false, ⟨0, by decide⟩, ⟨0, by decide⟩⟩

/-- Go `f <= 0`: false for NaN, true for both zeros and every negative value
(`-Inf` included). -/
def Float64.leZero (f : Float64) : Bool := Float64.le f Float64.cZero

/-- Go `f > 0`: false for NaN, true for every positive value (`+Inf` included). -/
def Float64.gtZero (f : Float64) : Bool := Float64.lt Float64.cZero f

/-- The constant `587.0` (`0x4082580000000000`). -/
def Float64.c587 : Float64 := ⟨false, ⟨1032, by decide⟩, ⟨0x2580000000000, by decide⟩⟩

/-- The constant `-100` (`0xC059000000000000`). -/
def Float64.cNeg100 : Float64 := ⟨true, ⟨1029, by decide⟩, ⟨0x9000000000000, by decide⟩⟩

/-- The constant `-0.0` (`0x8000000000000000`). -/
def Float64.cNegZero : Float64 := ⟨true, ⟨0, by decide⟩, ⟨0, by decide⟩⟩

/-- The value `+Inf` (`0x7FF0000000000000`). -/
def Float64.cInf : Float64 := ⟨false, ⟨2047, by decide⟩, ⟨0, by decide⟩⟩

/-- The constant `0.001` (`0x3F50624DD2F1A9FC`). -/
def Float64.cMilli : Float64 := ⟨false, ⟨1013, by decide⟩, ⟨0x0624DD2F1A9FC, by decide⟩⟩

/-- The constant `-0.001` (`0xBF50624DD2F1A9FC`). -/
def Float64.cNegMilli : Float64 := ⟨true, ⟨1013, by decide⟩, ⟨0x0624DD2F1A9FC, by decide⟩⟩

/-- The quiet NaN that `strconv.ParseFloat("NaN", 64)` yields
(`0x7FF8000000000001`). -/
def Float64.cNaN : Float64 := ⟨false, ⟨2047, by decide⟩, ⟨0x8000000000001, by decide⟩⟩

/-! ## Filesystem -/

/-- The error of a failed `os.Stat`: its message and what `os.IsNotExist`
answers for it. -/
structure PathError where
  msg : String
  notExist : Bool
  deriving DecidableEq

/-- The part of the filesystem the program observes. `Stat p = none` means
that `os.Stat(p)` succeeded. `ReadFile` gives the content or the error. -/
structure FileSystem where
  Stat : String → Option PathError
  ReadFile : String → Except GoError (List (Fin 256))

/-! ## Package path/filepath (Unix-like target, separator `/`, no volume names) -/

/-- Go `os.IsPathSeparator`. -/
def os_IsPathSeparator (c : Char) : Bool := c == '/'

/-- Go `filepath.IsAbs`: `strings.HasPrefix(path, "/")`. -/
def filepath_IsAbs (path : String) : Bool :=
  "/".data.isPrefixOf path.data

/-- The backward scan of `filepath.Ext`: `rev` holds `path[0..i]` reversed and
`acc` holds `path[i+1:]`. -/
def extLoop : List Char → List Char → List Char
  | [], _ => []
  | c :: rev, acc =>
    if os_IsPathSeparator c then []
    else if c == '.' then c :: acc
    else extLoop rev (c :: acc)

/-- Go `filepath.Ext`: the suffix beginning at the final dot in the final
element of `path`, empty if there is no dot. -/
def filepath_Ext (path : String) : String :=
  ⟨extLoop path.data.reverse []⟩

/-- The inner loop of the `..` case of `filepath.Clean`: starting at index `w`,
step back while `w > dotdot` and `buf[w]` is not a separator. -/
def backtrackLoop (buf : List Char) (dotdot : Nat) : Nat → Nat
  | 0 => 0
  | w + 1 =>
    if w + 1 > dotdot && !os_IsPathSeparator (buf.getD (w + 1) '/') then
      backtrackLoop buf dotdot w
    else w + 1

/-- The loop variables of `filepath.Clean`: `r` is the index of the next byte
of `path` to process, `out` the bytes written so far (its length is `out.w`),
`dotdot` the index in `out` where `..` must stop. -/
structure CleanState where
  r : Nat
  out : List Char
  dotdot : Nat
  deriving DecidableEq

/-- One iteration of the loop `for r < n` of `filepath.Clean`, entered with
`r < n`. -/
def cleanStep (path : List Char) (rooted : Bool) (s : CleanState) : CleanState :=
  let n := path.length
  if os_IsPathSeparator (path.getD s.r '/') then
    { s with r := s.r + 1 }
  else if path.getD s.r '/' == '.'
      && (s.r + 1 == n || os_IsPathSeparator (path.getD (s.r + 1) '/')) then
    { s with r := s.r + 1 }
  else if path.getD s.r '/' == '.' && path.getD (s.r + 1) '/' == '.'
      && (s.r + 2 == n || os_IsPathSeparator (path.getD (s.r + 2) '/')) then
    if s.out.length > s.dotdot then
      { s with
        r := s.r + 2
        out := s.out.take (backtrackLoop s.out s.dotdot (s.out.length - 1)) }
    else if !rooted then
      let out1 := if s.out.length > 0 then s.out ++ ['/'] else s.out
      let out2 := out1 ++ ['.', '.']
      { r := s.r + 2, out := out2, dotdot := out2.length }
    else
      { s with r := s.r + 2 }
  else
    let out1 :=
      if (rooted && s.out.length != 1) || (!rooted && s.out.length != 0) then
        s.out ++ ['/']
      else s.out
    let elem := (path.drop s.r).takeWhile (fun c => !os_IsPathSeparator c)
    { s with r := s.r + elem.length, out := out1 ++ elem }

/-- The loop `for r < n` of `filepath.Clean`, at most `fuel` iterations; the
result is the content of the output buffer. -/
def cleanLoop (path : List Char) (rooted : Bool) : Nat → CleanState → List Char
  | 0, s => s.out
  | fuel + 1, s =>
    if s.r < path.length then cleanLoop path rooted fuel (cleanStep path rooted s)
    else s.out

/-- Go `filepath.Clean` on character lists. Every iteration advances `r`, so
`path.length` iterations complete the loop (`cleanLoop_fuel_enough`). -/
def cleanChars (path : List Char) : List Char :=
  match path with
  | [] => ['.']
  | c :: _ =>
    let rooted := os_IsPathSeparator c
    let out :=
      if rooted then cleanLoop path rooted path.length ⟨1, ['/'], 1⟩
      else cleanLoop path rooted path.length ⟨0, [], 0⟩
    if out.length == 0 then ['.'] else out

/-- Go `filepath.Clean`. -/
def filepath_Clean (path : String) : String := ⟨cleanChars path.data⟩

/-- The prefix `path[:i+1]` that `filepath.Dir` cleans: everything up to and
including the last separator, empty if there is none. -/
def dirPart (path : List Char) : List Char :=
  (path.reverse.dropWhile (fun c => !os_IsPathSeparator c)).reverse

/-- Go `filepath.Dir`. -/
def filepath_Dir (path : String) : String := ⟨cleanChars (dirPart path.data)⟩

end GoStd

open GoStd

namespace main

/-- Source `main.go`, `getExitCode`. -/
def getExitCode (err : Option GoError) : Int :=
  match err with
  | none => 0
  | some e =>
    let errStr := e.Error
    if strings_Contains errStr "invalid configuration"
        || strings_Contains errStr "too many arguments"
        || strings_Contains errStr "requires at least" then 2
    else if strings_Contains errStr "failed to send"
        || strings_Contains errStr "failed to beep" then 3
    else 1

end main

namespace config

/-- Source `internal/config/config.go`, `type Config`. -/
structure Config where
  AlertMode : Bool
  BeepMode : Bool
  Icon : String
  AppName : String
  Frequency : Float64
  Duration : Int
  Quiet : Bool
  Version : Bool
  deriving DecidableEq

/-- Source `internal/config/config.go`, `(*Config).validateIconFile`. -/
def validateIconFile (fs : FileSystem) (c : Config) : Option GoError :=
  match fs.Stat c.Icon with
  | some err =>
    if err.notExist then some (errors_New ("icon file does not exist: " ++ c.Icon))
    else some (errors_New ("cannot access icon file: " ++ err.msg))
  | none =>
    let ext := filepath_Ext c.Icon
    if ext = ".png" ∨ ext = ".jpg" ∨ ext = ".jpeg" ∨ ext = ".ico" ∨ ext = ".bmp" then none
    else some (errors_New
      ("unsupported icon format: " ++ ext ++ " (supported: .png, .jpg, .jpeg, .ico, .bmp)"))

/-- Source `internal/config/config.go`, `(*Config).validateIcon`. -/
def validateIcon (fs : FileSystem) (c : Config) : Option GoError :=
  if filepath_IsAbs c.Icon then validateIconFile fs c
  else if filepath_Dir c.Icon ≠ "." then validateIconFile fs c
  else if filepath_Ext c.Icon ≠ "" ∧ fs.Stat c.Icon = none then validateIconFile fs c
  else none

/-- Source `internal/config/config.go`, `(*Config).Validate`. -/
def Validate (fs : FileSystem) (c : Config) : Option GoError :=
  if c.AlertMode && c.BeepMode then
    some (errors_New "cannot use both --alert and --beep modes")
  else
    match (if c.Icon ≠ "" then validateIcon fs c else none) with
    | some err => some err
    | none =>
      if c.Frequency.leZero then some (errors_New "frequency must be positive")
      else if c.Duration ≤ 0 then some (errors_New "duration must be positive")
      else none

/-- The statement `switch ext` of `validateIconFile` taken alone: true in the
case ".png", ".jpg", ".jpeg", ".ico", ".bmp", false in the default case. -/
def iconFormatSwitch (ext : String) : Bool :=
  if ext = ".png" ∨ ext = ".jpg" ∨ ext = ".jpeg" ∨ ext = ".ico" ∨ ext = ".bmp" then true
  else false

end config

namespace notify

/-- The dynamic value passed in the `icon interface{}` slot of the backend:
a string (empty or a stock icon name) or the bytes of a file. -/
inductive IconData where
  | str (s : String)
  | bytes (data : List (Fin 256))
  deriving DecidableEq

/-- One call on the `Beeper` interface (source `internal/notify/interface.go`). -/
inductive Call where
  | SetAppName (name : String)
  | Notify (title message : String) (icon : IconData)
  | Alert (title message : String) (icon : IconData)
  | Beep (freq : Float64) (duration : Int)
  deriving DecidableEq

/-- Source `internal/notify/interface.go`, `type Beeper`: the error each
operation returns, which may depend on the calls made before it. -/
structure Beeper where
  Notify : List Call → String → String → IconData → Option GoError
  Alert : List Call → String → String → IconData → Option GoError
  Beep : List Call → Float64 → Int → Option GoError

/-- The observable effects of a run so far, oldest first: the calls made on the
backend, the paths given to `os.ReadFile`, and the text printed by the command. -/
structure World where
  calls : List Call
  reads : List String
  out : List String
  deriving DecidableEq

/-- The state before anything has happened. -/
def World.init : World := ⟨[], [], []⟩

/-- The block `data, err := os.ReadFile(icon)` with its error return, which
occurs three times in `processIcon`. -/
def readIconFile (fs : FileSystem) (icon : String) (w : World) :
    Except GoError IconData × World :=
  let w1 := { w with reads := w.reads ++ [icon] }
  match fs.ReadFile icon with
  | .error err => (.error (fmt_Errorf_w "cannot read icon file: " err), w1)
  | .ok data => (.ok (.bytes data), w1)

/-- Source `internal/notify/notify.go`, `processIcon`. -/
def processIcon (fs : FileSystem) (icon : String) (w : World) :
    Except GoError IconData × World :=
  if icon = "" then (.ok (.str ""), w)
  else if filepath_IsAbs icon then readIconFile fs icon w
  else if filepath_Dir icon ≠ "." then readIconFile fs icon w
  else if filepath_Ext icon ≠ "" ∧ fs.Stat icon = none then readIconFile fs icon w
  else (.ok (.str icon), w)

/-- The statement `if appName != "" { defaultBeeper.SetAppName(appName) }`. -/
def setAppName (appName : String) (w : World) : World :=
  if appName ≠ "" then { w with calls := w.calls ++ [.SetAppName appName] } else w

/-- Source `internal/notify/notify.go`, `Notify`. -/
def Notify (fs : FileSystem) (b : Beeper) (title message icon appName : String)
    (w : World) : Option GoError × World :=
  let w1 := setAppName appName w
  match processIcon fs icon w1 with
  | (.error err, w2) => (some (fmt_Errorf_w "failed to process icon: " err), w2)
  | (.ok iconData, w2) =>
    let w3 := { w2 with calls := w2.calls ++ [.Notify title message iconData] }
    match b.Notify w2.calls title message iconData with
    | some err => (some (fmt_Errorf_w "failed to send notification: " err), w3)
    | none => (none, w3)

/-- Source `internal/notify/notify.go`, `Alert`. -/
def Alert (fs : FileSystem) (b : Beeper) (title message icon appName : String)
    (w : World) : Option GoError × World :=
  let w1 := setAppName appName w
  match processIcon fs icon w1 with
  | (.error err, w2) => (some (fmt_Errorf_w "failed to process icon: " err), w2)
  | (.ok iconData, w2) =>
    let w3 := { w2 with calls := w2.calls ++ [.Alert title message iconData] }
    match b.Alert w2.calls title message iconData with
    | some err => (some (fmt_Errorf_w "failed to send alert: " err), w3)
    | none => (none, w3)

/-- Source `internal/notify/notify.go`, `Beep`. -/
def Beep (b : Beeper) (frequency : Float64) (duration : Int) (w : World) :
    Option GoError × World :=
  let w1 := { w with calls := w.calls ++ [.Beep frequency duration] }
  match b.Beep w.calls frequency duration with
  | some err => (some (fmt_Errorf_w "failed to beep: " err), w1)
  | none => (none, w1)

/-- Source `internal/notify/notify.go`, `GetSupportedFormats`. -/
def GetSupportedFormats : List String := [".png", ".jpg", ".jpeg", ".ico", ".bmp"]

/-- The loop `for _, format := range supported` of `IsValidIconFormat`: true at
the first format equal to `ext`, false when the list is exhausted. -/
def formatLoop (ext : String) : List String → Bool
  | [] => false
  | format :: rest => if ext = format then true else formatLoop ext rest

/-- Source `internal/notify/notify.go`, `IsValidIconFormat`. -/
def IsValidIconFormat (ext : String) : Bool :=
  formatLoop ext GetSupportedFormats

end notify

namespace cmd

open config notify

/-- What a run of the command needs from outside: the filesystem, the backend
installed with `notify.SetBeeper`, and the build-time value of `cmd.Version`. -/
structure Env where
  fs : FileSystem
  beeper : Beeper
  Version : String

/-- How a Go function ends: it returns its error value, or it panics. -/
inductive Outcome where
  | returned (err : Option GoError)
  | panicked (msg : String)
  deriving DecidableEq

/-- Source `cmd/root.go`, `rootCmd.Args`, on the positional arguments. -/
def Args (cfg : Config) (args : List String) : Option GoError :=
  if cfg.Version then none
  else if cfg.BeepMode then none
  else if args.length < 1 then some (errors_New "requires at least a title argument")
  else if args.length > 2 then
    some (errors_New "too many arguments, expected: <title> [message]")
  else none

/-- Source `cmd/root.go`, `rootCmd.RunE`. -/
def RunE (env : Env) (cfg : Config) (args : List String) (w : World) : Outcome × World :=
  if cfg.Version then
    (.returned none,
      { w with out := w.out ++ ["wsl-notify-send version " ++ env.Version ++ "\n"] })
  else
    match Validate env.fs cfg with
    | some err => (.returned (some (fmt_Errorf_w "invalid configuration: " err)), w)
    | none =>
      if cfg.BeepMode then
        let r := notify.Beep env.beeper cfg.Frequency cfg.Duration w
        (.returned r.1, r.2)
      else
        match args with
        | [] => (.panicked "runtime error: index out of range [0] with length 0", w)
        | title :: rest =>
          let message := if args.length > 1 then rest.headD "" else ""
          if cfg.AlertMode then
            let r := notify.Alert env.fs env.beeper title message cfg.Icon cfg.AppName w
            (.returned r.1, r.2)
          else
            let r := notify.Notify env.fs env.beeper title message cfg.Icon cfg.AppName w
            (.returned r.1, r.2)

/-- Source `cmd/root.go`, `Execute`: the command first checks the positional
arguments with `Args` and runs `RunE` only when that check passes. -/
def Execute (env : Env) (cfg : Config) (args : List String) (w : World) :
    Outcome × World :=
  match Args cfg args with
  | some err => (.returned (some err), w)
  | none => RunE env cfg args w

/-- One write on standard error: a literal text, the usage text that the
command-line library renders for `rootCmd`, or the goroutine trace that the Go
runtime prints after a panic. The content of the last two is not needed. -/
inductive Write where
  | text (s : String)
  | usage
  | trace
  deriving DecidableEq

/-- What `rootCmd.Execute()` itself writes to standard error when the command
ends with the error `err`: `rootCmd` in `cmd/root.go` sets neither
`SilenceErrors` nor `SilenceUsage`, so the library prints the line
"Error: <message>" and then the usage text, whatever the flags are. -/
def reportError (err : GoError) : List Write :=
  [.text ("Error: " ++ err.Error ++ "\n"), .usage]

/-- Source `cmd/root.go`, `IsQuietMode`, on the configuration the flags
produced. -/
def IsQuietMode (cfg : Config) : Bool := cfg.Quiet

end cmd

namespace main

set_option linter.dupNamespace false

/-- What the process leaves behind: its exit status and what was written to
standard error in reporting the outcome of the command, in order: the report
of `rootCmd.Execute()` and the line of `main`. (What `RunE` prints with
`cmd.Printf` is kept in `World.out`.) -/
structure Exit where
  code : Int
  stderr : List cmd.Write
  deriving DecidableEq

/-- Source `main.go`, `main`: when `cmd.Execute()` returns an error, which it
has by then reported itself on standard error, the exit status is
`getExitCode(err)` and, unless quiet, `main` writes the line
"Error: <message>"; when it returns nil the process ends with status 0. A
panic ends a Go process with status 2, the panic message and a trace on
standard error. -/
def main (env : cmd.Env) (cfg : config.Config) (args : List String)
    (w : notify.World) : Exit × notify.World :=
  match cmd.Execute env cfg args w with
  | (.returned (some err), w1) =>
    let exitCode := getExitCode (some err)
    (⟨exitCode,
      cmd.reportError err
        ++ (if !cmd.IsQuietMode cfg then [.text ("Error: " ++ err.Error ++ "\n")] else [])⟩,
      w1)
  | (.returned none, w1) => (⟨0, []⟩, w1)
  | (.panicked msg, w1) => (⟨2, [.text ("panic: " ++ msg ++ "\n"), .trace]⟩, w1)

end main

namespace testdata

/-- Source `testdata/helpers.go`, `SupportedIconFormats`. -/
def SupportedIconFormats : List String := [".png", ".jpg", ".jpeg", ".ico", ".bmp"]

/-- Source `testdata/helpers.go`, `UnsupportedIconFormats`. -/
def UnsupportedIconFormats : List String := [".gif", ".webp", ".svg", ".txt", ".exe"]

end testdata

/-! ## Reference definitions taken from the specification -/

namespace Spec

/-- The string `sub` occurs in `s` as a contiguous run of characters
(case-sensitive, at any offset). -/
def Occurs (sub s : String) : Prop := sub.data <:+: s.data

instance (sub s : String) : Decidable (Occurs sub s) :=
  inferInstanceAs (Decidable (sub.data <:+: s.data))

/-- The message carries one of the configuration/argument markers. -/
def hasConfigMarker (msg : String) : Prop :=
  Occurs "invalid configuration" msg ∨ Occurs "too many arguments" msg
    ∨ Occurs "requires at least" msg

instance (msg : String) : Decidable (hasConfigMarker msg) :=
  inferInstanceAs (Decidable (_ ∨ _ ∨ _))

/-- The message carries one of the delivery markers. -/
def hasDeliveryMarker (msg : String) : Prop :=
  Occurs "failed to send" msg ∨ Occurs "failed to beep" msg

instance (msg : String) : Decidable (hasDeliveryMarker msg) :=
  inferInstanceAs (Decidable (_ ∨ _))

/-- The exit classifier as the specification words it (section 4.4). -/
def exitCode (err : Option GoError) : Int :=
  match err with
  | none => 0
  | some e =>
    if hasConfigMarker e.Error then 2
    else if hasDeliveryMarker e.Error then 3
    else 1

/-- A delivery call on the backend: Notify, Alert or Beep (not SetAppName). -/
def isDelivery : notify.Call → Bool
  | .SetAppName _ => false
  | .Notify _ _ _ => true
  | .Alert _ _ _ => true
  | .Beep _ _ => true

/-- The world `w2` continues `w` by at most one delivery call and at most one
file read (section 5). -/
def atMostOneDelivery (w w2 : notify.World) : Prop :=
  ∃ cs rs, w2.calls = w.calls ++ cs ∧ w2.reads = w.reads ++ rs
    ∧ (cs.filter isDelivery).length ≤ 1 ∧ rs.length ≤ 1

/-- The extension is one of the supported ones of section 4.1. -/
def supportedExt (ext : String) : Prop :=
  ext ∈ [".png", ".jpg", ".jpeg", ".ico", ".bmp"]

instance (ext : String) : Decidable (supportedExt ext) :=
  inferInstanceAs (Decidable (ext ∈ _))

/-- The token is taken as a file path by the three tests that `validateIcon`
and `processIcon` share: it is absolute, or its directory is not ".", or it
has an extension and `os.Stat` finds it. -/
def classifiedAsFile (fs : FileSystem) (icon : String) : Prop :=
  icon ≠ "" ∧ (filepath_IsAbs icon = true ∨ filepath_Dir icon ≠ "."
    ∨ (filepath_Ext icon ≠ "" ∧ fs.Stat icon = none))

instance (fs : FileSystem) (icon : String) : Decidable (classifiedAsFile fs icon) :=
  inferInstanceAs (Decidable (_ ∧ _))

end Spec

/-! ## Concrete inputs used by the examples -/

namespace Fixtures

open config notify cmd

/-- The configuration that the flag defaults of `cmd/root.go` `init` produce. -/
def defaultConfig : Config :=
  { AlertMode := false, BeepMode := false, Icon := "", AppName := "wsl-notify-send",
    Frequency := Float64.c587, Duration := 500, Quiet := false, Version := false }

/-- A filesystem in which no path exists. -/
def fsEmpty : FileSystem :=
  { Stat := fun p => some ⟨"stat " ++ p ++ ": no such file or directory", true⟩
    ReadFile := fun p =>
      .error (errors_New ("open " ++ p ++ ": no such file or directory")) }

/-- A filesystem that holds exactly the listed files, each with its content. -/
def fsFiles (files : List (String × List (Fin 256))) : FileSystem :=
  { Stat := fun p =>
      if files.any (fun f => f.1 == p) then none
      else some ⟨"stat " ++ p ++ ": no such file or directory", true⟩
    ReadFile := fun p =>
      match files.find? (fun f => f.1 == p) with
      | some f => .ok f.2
      | none => .error (errors_New ("open " ++ p ++ ": no such file or directory")) }

/-- A filesystem in which every path exists and no file can be read. -/
def fsUnreadable : FileSystem :=
  { Stat := fun _ => none
    ReadFile := fun p => .error (errors_New ("open " ++ p ++ ": permission denied")) }

/-- A backend on which every operation succeeds. -/
def beeperOk : Beeper :=
  { Notify := fun _ _ _ _ => none, Alert := fun _ _ _ _ => none, Beep := fun _ _ _ => none }

/-- A backend on which every operation fails with the error `e`. -/
def beeperFailing (e : GoError) : Beeper :=
  { Notify := fun _ _ _ _ => some e, Alert := fun _ _ _ _ => some e,
    Beep := fun _ _ _ => some e }

/-- The empty filesystem with the given backend and the default version. -/
def envEmpty (b : Beeper) : Env := { fs := fsEmpty, beeper := b, Version := "0.1.0" }

end Fixtures

/-! ## The path functions on sample inputs -/

theorem filepath_examples :
    filepath_Dir "./x.png" = "."
    ∧ filepath_Dir "/no/such/file.png" = "/no/such"
    ∧ filepath_Dir "a/../b.png" = "."
    ∧ filepath_Dir "../b.png" = ".."
    ∧ filepath_Dir "/file.png" = "/"
    ∧ filepath_Dir "warning" = "."
    ∧ filepath_Clean "/a//b/./c/../../d/" = "/a/d"
    ∧ filepath_Clean "../../a/../../b" = "../../../b"
    ∧ filepath_Clean "/../a" = "/a"
    ∧ filepath_Clean "abc/def/../.." = "."
    ∧ filepath_Clean "" = "."
    ∧ filepath_Ext "/no/such/file.png" = ".png"
    ∧ filepath_Ext "a.b/c" = ""
    ∧ filepath_Ext "warning" = ""
    ∧ filepath_Ext "x.tar.gz" = ".gz"
    ∧ filepath_Ext "test.PNG" = ".PNG"
    ∧ filepath_IsAbs "/no/such/file.png" = true
    ∧ filepath_IsAbs "./x.png" = false := by
  decide

/-! ## The float64 comparisons on sample values -/

theorem Float64_examples :
    Float64.c587.gtZero = true ∧ Float64.c587.leZero = false
    ∧ Float64.cNeg100.leZero = true ∧ Float64.cNeg100.gtZero = false
    ∧ Float64.cZero.leZero = true ∧ Float64.cNegZero.leZero = true
    ∧ Float64.cZero.gtZero = false ∧ Float64.cNegZero.gtZero = false
    ∧ Float64.cMilli.gtZero = true ∧ Float64.cNegMilli.leZero = true
    ∧ Float64.cInf.gtZero = true
    ∧ Float64.lt Float64.cMilli Float64.c587 = true
    ∧ Float64.lt Float64.cNeg100 Float64.cNegMilli = true
    ∧ Float64.le Float64.cNegZero Float64.cZero = true
    ∧ Float64.le Float64.cZero Float64.cNegZero = true
    ∧ Float64.le Float64.cNaN Float64.cNaN = false := by
  decide

/-! ## The loop of filepath.Clean runs to completion -/

theorem takeWhile_drop_length_pos (path : List Char) (r : Nat) (h : r < path.length)
    (hc : os_IsPathSeparator (path.getD r '/') = false) :
    0 < ((path.drop r).takeWhile (fun c => !os_IsPathSeparator c)).length := by
  rw [List.getD_eq_getElem _ _ h] at hc
  rw [List.drop_eq_getElem_cons h, List.takeWhile_cons]
  simp [hc]

theorem cleanStep_advances (path : List Char) (rooted : Bool) (s : CleanState)
    (h : s.r < path.length) : s.r < (cleanStep path rooted s).r := by
  unfold cleanStep
  simp only []
  split
  · exact Nat.lt_succ_self _
  · rename_i hsep
    split
    · exact Nat.lt_succ_self _
    · split
      · split
        · show s.r < s.r + 2
          omega
        · split
          · show s.r < s.r + 2
            omega
          · show s.r < s.r + 2
            omega
      · have := takeWhile_drop_length_pos path s.r h (by simpa using hsep)
        show s.r < s.r + _
        omega

/-- Fuel beyond the number of bytes still to read does not change the result of
the loop: with `path.length` iterations allowed the loop has ended by itself. -/
theorem cleanLoop_fuel_enough (path : List Char) (rooted : Bool) :
    ∀ (fuel k : Nat) (s : CleanState), path.length ≤ s.r + fuel →
      cleanLoop path rooted (fuel + k) s = cleanLoop path rooted fuel s := by
  intro fuel
  induction fuel with
  | zero =>
    intro k s h
    cases k with
    | zero => rfl
    | succ k =>
      have hr : ¬ s.r < path.length := by omega
      rw [Nat.zero_add, cleanLoop, cleanLoop, if_neg hr]
  | succ fuel ih =>
    intro k s h
    have hk : fuel + 1 + k = (fuel + k) + 1 := by omega
    rw [hk, cleanLoop, cleanLoop]
    split
    · rename_i hr
      have := cleanStep_advances path rooted s hr
      exact ih k _ (by omega)
    · rfl

/-! ## Lemmas on strings -/

theorem containsChars_iff_infix (s sub : List Char) :
    containsChars s sub = true ↔ sub <:+: s := by
  induction s with
  | nil =>
    simp [containsChars, List.isPrefixOf_iff_prefix]
  | cons c t ih =>
    simp only [containsChars, Bool.or_eq_true, ih, List.isPrefixOf_iff_prefix]
    exact List.infix_cons_iff.symm

theorem strings_Contains_iff (s sub : String) :
    strings_Contains s sub = true ↔ Spec.Occurs sub s :=
  containsChars_iff_infix s.data sub.data

theorem strings_Contains_false_iff (s sub : String) :
    strings_Contains s sub = false ↔ ¬ Spec.Occurs sub s := by
  rw [← strings_Contains_iff, Bool.not_eq_true]

/-- The classifier of the source in terms of the two marker predicates. -/
theorem getExitCode_some (e : GoError) :
    main.getExitCode (some e) =
      if Spec.hasConfigMarker e.Error then 2
      else if Spec.hasDeliveryMarker e.Error then 3 else 1 := by
  simp only [main.getExitCode, Spec.hasConfigMarker, Spec.hasDeliveryMarker,
    Bool.or_eq_true, strings_Contains_iff, or_assoc]

/-! ## Exit-code classification -/

/-- C1: `getExitCode` agrees with the reference classifier of the specification
on every optional error: `nil` gives 0, a configuration/argument marker gives 2,
otherwise a delivery marker gives 3, otherwise 1; the messages
"Invalid Configuration" and "" both give 1. -/
theorem getExitCode_eq_spec :
    (∀ err : Option GoError, main.getExitCode err = Spec.exitCode err)
    ∧ main.getExitCode (some (errors_New "Invalid Configuration")) = 1
    ∧ main.getExitCode (some (errors_New "")) = 1 := by
  refine ⟨?_, by decide, by decide⟩
  intro err
  cases err with
  | none => rfl
  | some e => rw [getExitCode_some]; rfl

/-- C2: an error whose message carries a configuration/argument marker is
classified 2, whether or not the message also carries a delivery marker. -/
theorem getExitCode_config_first (e : GoError) (h : Spec.hasConfigMarker e.Error) :
    main.getExitCode (some e) = 2 := by
  rw [getExitCode_some, if_pos h]

/-- C2 at the message of the test `TestGetExitCodeMultipleMatches`, which carries
both kinds of marker. -/
theorem getExitCode_config_first_witness :
    Spec.hasConfigMarker
        (errors_New "invalid configuration: failed to send notification").Error
      ∧ Spec.hasDeliveryMarker
        (errors_New "invalid configuration: failed to send notification").Error
      ∧ main.getExitCode
        (some (errors_New "invalid configuration: failed to send notification")) = 2 :=
  ⟨by decide, by decide,
    getExitCode_config_first
      (errors_New "invalid configuration: failed to send notification") (by decide)⟩

/-! ## Wrapped backend errors -/

theorem isPrefixOf_append_cases (s sub m : List Char)
    (h : sub.isPrefixOf (s ++ m) = true) :
    sub.isPrefixOf s = true ∨ s.isPrefixOf sub = true := by
  induction s generalizing sub with
  | nil => right; simp
  | cons c s ih =>
    cases sub with
    | nil => left; simp
    | cons d sub =>
      simp only [List.cons_append, List.isPrefixOf, Bool.and_eq_true] at h ⊢
      rcases ih sub h.2 with h1 | h1
      · exact Or.inl ⟨h.1, h1⟩
      · exact Or.inr ⟨beq_iff_eq.mpr (beq_iff_eq.mp h.1).symm, h1⟩

theorem containsChars_append_of_overlaps (p sub m : List Char)
    (h : overlaps p sub = false) :
    containsChars (p ++ m) sub = containsChars m sub := by
  induction p with
  | nil => rfl
  | cons c p ih =>
    simp only [overlaps, Bool.or_eq_false_iff] at h
    obtain ⟨⟨h1, h2⟩, h3⟩ := h
    have hp : sub.isPrefixOf (c :: (p ++ m)) = false := by
      by_contra hc
      rw [Bool.not_eq_false] at hc
      rcases isPrefixOf_append_cases (c :: p) sub m hc with h4 | h4
      · rw [h1] at h4; exact Bool.false_ne_true h4
      · rw [h2] at h4; exact Bool.false_ne_true h4
    show (sub.isPrefixOf (c :: (p ++ m)) || containsChars (p ++ m) sub)
      = containsChars m sub
    rw [hp, Bool.false_or]
    exact ih h3

theorem occurs_append_iff (pre sub m : String)
    (h : overlaps pre.data sub.data = false) :
    Spec.Occurs sub (pre ++ m) ↔ Spec.Occurs sub m := by
  rw [← strings_Contains_iff, ← strings_Contains_iff]
  simp only [strings_Contains, String.data_append]
  rw [containsChars_append_of_overlaps _ _ _ h]

theorem occurs_append_left (pre sub m : String) (h : Spec.Occurs sub pre) :
    Spec.Occurs sub (pre ++ m) := by
  unfold Spec.Occurs at h ⊢
  rw [String.data_append]
  exact h.trans (List.prefix_append _ _).isInfix

/-- An error wrapped with a text that carries a delivery marker and cannot
overlap a configuration marker is classified by the markers of the inner
message alone. -/
theorem getExitCode_wrap (pre : String) (e : GoError)
    (hdel : Spec.hasDeliveryMarker pre)
    (h1 : overlaps pre.data "invalid configuration".data = false)
    (h2 : overlaps pre.data "too many arguments".data = false)
    (h3 : overlaps pre.data "requires at least".data = false) :
    main.getExitCode (some (fmt_Errorf_w pre e)) =
      if Spec.hasConfigMarker e.Error then 2 else 3 := by
  have hd : Spec.hasDeliveryMarker (pre ++ e.Error) := by
    rcases hdel with h | h
    · exact Or.inl (occurs_append_left _ _ _ h)
    · exact Or.inr (occurs_append_left _ _ _ h)
  have hc : Spec.hasConfigMarker (pre ++ e.Error) ↔ Spec.hasConfigMarker e.Error := by
    unfold Spec.hasConfigMarker
    rw [occurs_append_iff _ _ _ h1, occurs_append_iff _ _ _ h2, occurs_append_iff _ _ _ h3]
  have hmsg : (fmt_Errorf_w pre e).Error = pre ++ e.Error := rfl
  rw [getExitCode_some, hmsg]
  by_cases hm : Spec.hasConfigMarker e.Error
  · rw [if_pos (hc.mpr hm), if_pos hm]
  · rw [if_neg (fun h => hm (hc.mp h)), if_pos hd, if_neg hm]

theorem getExitCode_wrap_notification (e : GoError) :
    main.getExitCode (some (fmt_Errorf_w "failed to send notification: " e)) =
      if Spec.hasConfigMarker e.Error then 2 else 3 :=
  getExitCode_wrap _ e (by decide) (by decide) (by decide) (by decide)

theorem getExitCode_wrap_alert (e : GoError) :
    main.getExitCode (some (fmt_Errorf_w "failed to send alert: " e)) =
      if Spec.hasConfigMarker e.Error then 2 else 3 :=
  getExitCode_wrap _ e (by decide) (by decide) (by decide) (by decide)

theorem getExitCode_wrap_beep (e : GoError) :
    main.getExitCode (some (fmt_Errorf_w "failed to beep: " e)) =
      if Spec.hasConfigMarker e.Error then 2 else 3 :=
  getExitCode_wrap _ e (by decide) (by decide) (by decide) (by decide)

/-! ## Classification of delivery failures -/

/-- C3 (as stated, refuted): a backend `Notify` error whose message is
"too many arguments" comes back from `notify.Notify` as
"failed to send notification: too many arguments" and is classified 2, not 3. -/
theorem backend_error_classified_2 :
    (Fixtures.beeperFailing (errors_New "too many arguments")).Notify
        [.SetAppName "wsl-notify-send"] "Test" "Message" (.str "")
      = some (errors_New "too many arguments")
    ∧ (notify.Notify Fixtures.fsEmpty
          (Fixtures.beeperFailing (errors_New "too many arguments"))
          "Test" "Message" "" "wsl-notify-send" notify.World.init).1
      = some (fmt_Errorf_w "failed to send notification: "
          (errors_New "too many arguments"))
    ∧ main.getExitCode
        (notify.Notify Fixtures.fsEmpty
          (Fixtures.beeperFailing (errors_New "too many arguments"))
          "Test" "Message" "" "wsl-notify-send" notify.World.init).1 = 2 := by
  decide

/-- C3 (amended): for every error `e` returned by the backend's Notify, Alert
or Beep operation, the error that `notify.Notify` / `notify.Alert` /
`notify.Beep` returns is classified 3 when the message of `e` carries no
configuration/argument marker, and 2 when it carries one. -/
theorem backend_error_exit_code (fs : FileSystem) (b : notify.Beeper)
    (title message icon appName : String) (w w2 : notify.World)
    (iconData : notify.IconData) (freq : Float64) (duration : Int) (e : GoError) :
    (notify.processIcon fs icon (notify.setAppName appName w) = (.ok iconData, w2) →
      b.Notify w2.calls title message iconData = some e →
      main.getExitCode (notify.Notify fs b title message icon appName w).1
        = if Spec.hasConfigMarker e.Error then 2 else 3)
    ∧ (notify.processIcon fs icon (notify.setAppName appName w) = (.ok iconData, w2) →
      b.Alert w2.calls title message iconData = some e →
      main.getExitCode (notify.Alert fs b title message icon appName w).1
        = if Spec.hasConfigMarker e.Error then 2 else 3)
    ∧ (b.Beep w.calls freq duration = some e →
      main.getExitCode (notify.Beep b freq duration w).1
        = if Spec.hasConfigMarker e.Error then 2 else 3) := by
  refine ⟨?_, ?_, ?_⟩
  · intro hp hb
    simp only [notify.Notify, hp, hb]
    exact getExitCode_wrap_notification e
  · intro hp hb
    simp only [notify.Alert, hp, hb]
    exact getExitCode_wrap_alert e
  · intro hb
    simp only [notify.Beep, hb]
    exact getExitCode_wrap_beep e

/-- C3 (amended) at a backend whose `Notify` fails with "boom": exit code 3. -/
theorem backend_error_exit_code_witness :
    notify.processIcon Fixtures.fsEmpty "" (notify.setAppName "app" notify.World.init)
        = (.ok (.str ""), ⟨[.SetAppName "app"], [], []⟩)
    ∧ (Fixtures.beeperFailing (errors_New "boom")).Notify [.SetAppName "app"] "T" "M"
        (.str "") = some (errors_New "boom")
    ∧ main.getExitCode
        (notify.Notify Fixtures.fsEmpty (Fixtures.beeperFailing (errors_New "boom"))
          "T" "M" "" "app" notify.World.init).1
        = (if Spec.hasConfigMarker (errors_New "boom").Error then 2 else 3)
    ∧ ¬ Spec.hasConfigMarker (errors_New "boom").Error :=
  ⟨rfl, rfl,
    (backend_error_exit_code Fixtures.fsEmpty (Fixtures.beeperFailing (errors_New "boom"))
      "T" "M" "" "app" notify.World.init ⟨[.SetAppName "app"], [], []⟩ (.str "")
      Float64.c587 500 (errors_New "boom")).1 rfl rfl,
    by decide⟩

/-! ## Rejection before delivery -/

theorem Args_error_exit_code (cfg : config.Config) (args : List String) (a : GoError)
    (h : cmd.Args cfg args = some a) : main.getExitCode (some a) = 2 := by
  unfold cmd.Args at h
  split at h
  · exact absurd h (by simp)
  · split at h
    · exact absurd h (by simp)
    · split at h
      · cases Option.some.inj h; decide
      · split at h
        · cases Option.some.inj h; decide
        · exact absurd h (by simp)

theorem invalid_configuration_exit_code (e : GoError) :
    main.getExitCode (some (fmt_Errorf_w "invalid configuration: " e)) = 2 := by
  have hmsg : (fmt_Errorf_w "invalid configuration: " e).Error
      = "invalid configuration: " ++ e.Error := rfl
  rw [getExitCode_some, hmsg, if_pos]
  exact Or.inl (occurs_append_left _ _ _ (by decide))

/-- C4: a non-version invocation rejected by the argument-count check or by
`Config.Validate` changes nothing outside (no backend call, no file read, no
output) and returns an error classified 2; when the argument check passes and
`Validate` fails with `e`, the returned error wraps `e` and its message is
"invalid configuration: " followed by the message of `e`. -/
theorem rejected_before_delivery (env : cmd.Env) (cfg : config.Config)
    (args : List String) (w : notify.World) (hv : cfg.Version = false)
    (hrej : cmd.Args cfg args ≠ none ∨ config.Validate env.fs cfg ≠ none) :
    ∃ err, cmd.Execute env cfg args w = (.returned (some err), w)
      ∧ main.getExitCode (some err) = 2
      ∧ (cmd.Args cfg args = none → ∀ e, config.Validate env.fs cfg = some e →
          err = fmt_Errorf_w "invalid configuration: " e
          ∧ err.Unwrap = some e
          ∧ err.Error = "invalid configuration: " ++ e.Error) := by
  cases ha : cmd.Args cfg args with
  | some a =>
    refine ⟨a, ?_, Args_error_exit_code cfg args a ha, ?_⟩
    · simp only [cmd.Execute, ha]
    · intro h; exact absurd h (by simp)
  | none =>
    have hval : config.Validate env.fs cfg ≠ none := by
      rcases hrej with h | h
      · exact absurd ha h
      · exact h
    cases hv2 : config.Validate env.fs cfg with
    | none => exact absurd hv2 hval
    | some e =>
      refine ⟨fmt_Errorf_w "invalid configuration: " e, ?_,
        invalid_configuration_exit_code e, ?_⟩
      · simp only [cmd.Execute, ha, cmd.RunE, hv, hv2, Bool.false_eq_true, if_false]
      · intro _ e2 he2
        cases Option.some.inj he2
        exact ⟨rfl, rfl, rfl⟩

/-- C4 at the two end-to-end inputs of the specification: beep mode with
frequency -100, and the icon "/no/such/file.png" on a filesystem without it. -/
theorem rejected_before_delivery_witness :
    ({ Fixtures.defaultConfig with BeepMode := true, Frequency := Float64.cNeg100 }
        : config.Config).Version = false
    ∧ config.Validate (Fixtures.envEmpty Fixtures.beeperOk).fs
        { Fixtures.defaultConfig with BeepMode := true, Frequency := Float64.cNeg100 }
        = some (errors_New "frequency must be positive")
    ∧ (∃ err, cmd.Execute (Fixtures.envEmpty Fixtures.beeperOk)
          { Fixtures.defaultConfig with BeepMode := true, Frequency := Float64.cNeg100 }
          [] notify.World.init = (.returned (some err), notify.World.init)
        ∧ main.getExitCode (some err) = 2
        ∧ (cmd.Args
            { Fixtures.defaultConfig with BeepMode := true, Frequency := Float64.cNeg100 }
            [] = none →
          ∀ e, config.Validate (Fixtures.envEmpty Fixtures.beeperOk).fs
            { Fixtures.defaultConfig with BeepMode := true, Frequency := Float64.cNeg100 }
            = some e →
          err = fmt_Errorf_w "invalid configuration: " e
          ∧ err.Unwrap = some e
          ∧ err.Error = "invalid configuration: " ++ e.Error))
    ∧ (∃ err, cmd.Execute (Fixtures.envEmpty Fixtures.beeperOk)
          { Fixtures.defaultConfig with Icon := "/no/such/file.png" }
          ["T", "M"] notify.World.init = (.returned (some err), notify.World.init)
        ∧ main.getExitCode (some err) = 2
        ∧ (cmd.Args { Fixtures.defaultConfig with Icon := "/no/such/file.png" }
            ["T", "M"] = none →
          ∀ e, config.Validate (Fixtures.envEmpty Fixtures.beeperOk).fs
            { Fixtures.defaultConfig with Icon := "/no/such/file.png" } = some e →
          err = fmt_Errorf_w "invalid configuration: " e
          ∧ err.Unwrap = some e
          ∧ err.Error = "invalid configuration: " ++ e.Error)) :=
  ⟨rfl, by decide,
    rejected_before_delivery (Fixtures.envEmpty Fixtures.beeperOk)
      { Fixtures.defaultConfig with BeepMode := true, Frequency := Float64.cNeg100 }
      [] notify.World.init rfl (Or.inr (by decide)),
    rejected_before_delivery (Fixtures.envEmpty Fixtures.beeperOk)
      { Fixtures.defaultConfig with Icon := "/no/such/file.png" }
      ["T", "M"] notify.World.init rfl (Or.inr (by decide))⟩

/-- The two end-to-end rejections of the specification and the default send,
evaluated. -/
theorem Execute_examples :
    cmd.Execute (Fixtures.envEmpty Fixtures.beeperOk)
        { Fixtures.defaultConfig with BeepMode := true, Frequency := Float64.cNeg100 }
        [] notify.World.init
      = (.returned (some (fmt_Errorf_w "invalid configuration: "
          (errors_New "frequency must be positive"))), notify.World.init)
    ∧ (fmt_Errorf_w "invalid configuration: "
          (errors_New "frequency must be positive")).Error
      = "invalid configuration: frequency must be positive"
    ∧ cmd.Execute (Fixtures.envEmpty Fixtures.beeperOk)
        { Fixtures.defaultConfig with Icon := "/no/such/file.png" }
        ["T", "M"] notify.World.init
      = (.returned (some (fmt_Errorf_w "invalid configuration: "
          (errors_New "icon file does not exist: /no/such/file.png"))),
          notify.World.init)
    ∧ cmd.Execute (Fixtures.envEmpty Fixtures.beeperOk)
        Fixtures.defaultConfig ["T", "M"] notify.World.init
      = (.returned none,
          ⟨[.SetAppName "wsl-notify-send", .Notify "T" "M" (.str "")], [], []⟩) := by
  decide

/-! ## Config.Validate -/

theorem Float64.leZero_eq (f : Float64) :
    f.leZero = (!f.isNaN && decide (f.key ≤ 0)) := by
  unfold Float64.leZero Float64.le
  have h1 : Float64.cZero.isNaN = false := by decide
  have h2 : Float64.cZero.key = 0 := by decide
  rw [h1, h2]; simp

theorem Float64.gtZero_eq (f : Float64) :
    f.gtZero = (!f.isNaN && decide (0 < f.key)) := by
  unfold Float64.gtZero Float64.lt
  have h1 : Float64.cZero.isNaN = false := by decide
  have h2 : Float64.cZero.key = 0 := by decide
  rw [h1, h2]; simp

theorem Float64.leZero_of_gtZero (f : Float64) (h : f.gtZero = true) :
    f.leZero = false := by
  rw [Float64.gtZero_eq] at h
  rw [Float64.leZero_eq]
  cases hn : f.isNaN
  · simp only [hn, Bool.not_false, Bool.true_and, decide_eq_true_eq] at h
    simp only [Bool.not_false, Bool.true_and, decide_eq_false_iff_not]
    omega
  · simp

theorem Float64.gtZero_or_isNaN_of_not_leZero (f : Float64) (h : f.leZero = false) :
    f.gtZero = true ∨ f.isNaN = true := by
  rw [Float64.leZero_eq] at h
  rw [Float64.gtZero_eq]
  cases hn : f.isNaN
  · simp only [hn, Bool.not_false, Bool.true_and, decide_eq_false_iff_not] at h
    left
    simp only [Bool.not_false, Bool.true_and, decide_eq_true_eq]
    omega
  · right; rfl

/-- The zero test by fields: `f <= 0` holds exactly for the non-NaN values that
are a zero or carry the sign bit. -/
theorem Float64.leZero_iff (f : Float64) :
    f.leZero = true ↔ f.isNaN = false ∧ (f.isZero = true ∨ f.sign = true) := by
  rw [Float64.leZero_eq]
  have hk : f.key ≤ 0 ↔ (f.isZero = true ∨ f.sign = true) := by
    unfold Float64.key Float64.isZero
    cases hs : f.sign
    · simp only [Bool.false_eq_true, if_false, or_false, Bool.and_eq_true, beq_iff_eq]
      omega
    · simp only [if_true, or_true, iff_true]
      omega
  cases hn : f.isNaN
  · simp [hk]
  · simp

/-- The method `Validate` as a list of four checks of which the first that fails
decides. -/
theorem Validate_decision_list (fs : FileSystem) (c : config.Config) :
    config.Validate fs c =
      if c.AlertMode = true ∧ c.BeepMode = true then
        some (errors_New "cannot use both --alert and --beep modes")
      else if c.Icon ≠ "" ∧ (config.validateIcon fs c).isSome then config.validateIcon fs c
      else if c.Frequency.leZero = true then some (errors_New "frequency must be positive")
      else if c.Duration ≤ 0 then some (errors_New "duration must be positive")
      else none := by
  unfold config.Validate
  by_cases hm : c.AlertMode = true ∧ c.BeepMode = true
  · simp [hm.1, hm.2]
  · have hm2 : (c.AlertMode && c.BeepMode) = false := by
      cases ha : c.AlertMode <;> cases hb : c.BeepMode <;> simp_all
    rw [if_neg hm, hm2]
    simp only [Bool.false_eq_true, if_false]
    by_cases hi : c.Icon = ""
    · simp [hi]
    · cases hv : config.validateIcon fs c with
      | none => simp [hi]
      | some e => simp [hi]

theorem Validate_of_checks_1_2 (fs : FileSystem) (c : config.Config)
    (hm : ¬ (c.AlertMode = true ∧ c.BeepMode = true))
    (hi : c.Icon = "" ∨ config.validateIcon fs c = none) :
    config.Validate fs c =
      if c.Frequency.leZero = true then some (errors_New "frequency must be positive")
      else if c.Duration ≤ 0 then some (errors_New "duration must be positive")
      else none := by
  rw [Validate_decision_list, if_neg hm, if_neg]
  rintro ⟨h1, h2⟩
  rcases hi with hi | hi
  · exact h1 hi
  · rw [hi] at h2; exact Bool.false_ne_true h2

/-- C5: with `AlertMode` and `BeepMode` both set, `Validate` fails with the
both-modes error, whatever the other fields and the filesystem are. -/
theorem Validate_both_modes (fs : FileSystem) (c : config.Config)
    (ha : c.AlertMode = true) (hb : c.BeepMode = true) :
    config.Validate fs c = some (errors_New "cannot use both --alert and --beep modes") := by
  rw [Validate_decision_list, if_pos ⟨ha, hb⟩]

/-- C5 at a configuration whose icon, frequency and duration would each fail
too. -/
theorem Validate_both_modes_witness :
    config.Validate Fixtures.fsEmpty
      { Fixtures.defaultConfig with
          AlertMode := true, BeepMode := true, Icon := "/no/such/file.png",
          Frequency := Float64.cNeg100, Duration := 0 }
      = some (errors_New "cannot use both --alert and --beep modes") :=
  Validate_both_modes Fixtures.fsEmpty _ rfl rfl

/-- C6: `Validate` reports the first failing check in the order both modes,
icon (when non-empty), frequency, duration, and nothing else: it equals the
four-step decision list; when the icon check is reached and fails with `e` the
result is `e` itself whatever frequency and duration are; when checks 1-2 pass
and frequency and duration are both non-positive the result is the frequency
error. -/
theorem Validate_first_failure (fs : FileSystem) (c : config.Config) :
    (config.Validate fs c =
      if c.AlertMode = true ∧ c.BeepMode = true then
        some (errors_New "cannot use both --alert and --beep modes")
      else if c.Icon ≠ "" ∧ (config.validateIcon fs c).isSome then config.validateIcon fs c
      else if c.Frequency.leZero = true then some (errors_New "frequency must be positive")
      else if c.Duration ≤ 0 then some (errors_New "duration must be positive")
      else none)
    ∧ (∀ e, ¬ (c.AlertMode = true ∧ c.BeepMode = true) → c.Icon ≠ "" →
        config.validateIcon fs c = some e →
        (c.Frequency.leZero = true ∨ c.Duration ≤ 0) → config.Validate fs c = some e)
    ∧ (¬ (c.AlertMode = true ∧ c.BeepMode = true) →
        (c.Icon = "" ∨ config.validateIcon fs c = none) →
        c.Frequency.leZero = true → c.Duration ≤ 0 →
        config.Validate fs c = some (errors_New "frequency must be positive")) := by
  refine ⟨Validate_decision_list fs c, ?_, ?_⟩
  · intro e hm hi he _
    rw [Validate_decision_list, if_neg hm, if_pos ⟨hi, by rw [he]; rfl⟩, he]
  · intro hm hi hf _
    rw [Validate_of_checks_1_2 fs c hm hi, if_pos hf]

/-- C6 at a missing icon file with frequency 0 and duration 0 (icon error), and
at an empty icon with frequency 0 and duration 0 (frequency error). -/
theorem Validate_first_failure_witness :
    config.Validate Fixtures.fsEmpty
        { Fixtures.defaultConfig with
            Icon := "/no/such/file.png", Frequency := Float64.cZero, Duration := 0 }
        = some (errors_New "icon file does not exist: /no/such/file.png")
    ∧ config.Validate Fixtures.fsEmpty
        { Fixtures.defaultConfig with Frequency := Float64.cZero, Duration := 0 }
        = some (errors_New "frequency must be positive") :=
  ⟨(Validate_first_failure Fixtures.fsEmpty
      { Fixtures.defaultConfig with
          Icon := "/no/such/file.png", Frequency := Float64.cZero, Duration := 0 }).2.1
      (errors_New "icon file does not exist: /no/such/file.png")
      (by decide) (by decide) (by decide) (Or.inl (by decide)),
    (Validate_first_failure Fixtures.fsEmpty
      { Fixtures.defaultConfig with Frequency := Float64.cZero, Duration := 0 }).2.2
      (by decide) (Or.inl (by decide)) (by decide) (by decide)⟩

/-- What a successful `Validate` guarantees: the modes are not both set, the
test `Frequency <= 0` was false, and the duration is positive. -/
theorem Validate_none_imp (fs : FileSystem) (c : config.Config)
    (h : config.Validate fs c = none) :
    ¬ (c.AlertMode = true ∧ c.BeepMode = true)
      ∧ c.Frequency.leZero = false ∧ 0 < c.Duration := by
  rw [Validate_decision_list] at h
  by_cases hm : c.AlertMode = true ∧ c.BeepMode = true
  · rw [if_pos hm] at h; exact absurd h (by simp)
  · rw [if_neg hm] at h
    refine ⟨hm, ?_⟩
    split at h
    · rename_i hi
      rw [h] at hi; exact absurd hi.2 (by simp)
    · split at h
      · exact absurd h (by simp)
      · rename_i hf
        split at h
        · exact absurd h (by simp)
        · rename_i hd
          exact ⟨by simpa using hf, by omega⟩

/-- C7 (the code at the failing input): a configuration whose frequency is NaN
and whose other fields are the defaults passes `Validate`, although its
frequency is not greater than zero; in beep mode the run then calls the
backend's `Beep` with that NaN. -/
theorem Validate_accepts_NaN_frequency (fs : FileSystem) :
    config.Validate fs
        { Fixtures.defaultConfig with BeepMode := true, Frequency := Float64.cNaN } = none
    ∧ Float64.cNaN.isNaN = true
    ∧ Float64.cNaN.gtZero = false
    ∧ Float64.cNaN.leZero = false
    ∧ cmd.Execute (Fixtures.envEmpty Fixtures.beeperOk)
        { Fixtures.defaultConfig with BeepMode := true, Frequency := Float64.cNaN }
        [] notify.World.init
      = (.returned none, ⟨[.Beep Float64.cNaN 500], [], []⟩) := by
  refine ⟨?_, by decide, by decide, by decide, by decide⟩
  rw [Validate_of_checks_1_2 fs _ (by decide) (Or.inl rfl)]
  decide

theorem head_data_append (a b : String) (c : Char) (h : a.data.head? = some c) :
    (a ++ b).data.head? = some c := by
  rw [String.data_append]
  cases ha : a.data with
  | nil => rw [ha] at h; exact absurd h (by simp)
  | cons x t => rw [ha] at h; simpa using h

theorem validateIcon_ne_frequency_error (fs : FileSystem) (c : config.Config) :
    config.validateIcon fs c ≠ some (errors_New "frequency must be positive") := by
  have key : config.validateIconFile fs c
      ≠ some (errors_New "frequency must be positive") := by
    unfold config.validateIconFile
    intro h
    split at h
    · split at h
      · have h2 := congrArg (fun s => s.data.head?) (GoError.errorString.inj (Option.some.inj h))
        simp only [] at h2
        rw [head_data_append _ _ 'i' (by decide)] at h2
        exact absurd h2 (by decide)
      · have h2 := congrArg (fun s => s.data.head?) (GoError.errorString.inj (Option.some.inj h))
        simp only [] at h2
        rw [head_data_append _ _ 'c' (by decide)] at h2
        exact absurd h2 (by decide)
    · simp only [] at h
      split at h
      · exact absurd h (by simp)
      · have h2 := congrArg (fun s => s.data.head?) (GoError.errorString.inj (Option.some.inj h))
        simp only [] at h2
        rw [String.append_assoc, head_data_append _ _ 'u' (by decide)] at h2
        exact absurd h2 (by decide)
  unfold config.validateIcon
  split
  · exact key
  · split
    · exact key
    · split
      · exact key
      · simp

/-- C8 (as stated, refuted): with both modes set and frequency 0.0 the error is
the both-modes error, not the frequency error. -/
theorem frequency_error_not_first :
    ({ Fixtures.defaultConfig with
        AlertMode := true, BeepMode := true, Frequency := Float64.cZero }
        : config.Config).Frequency.leZero = true
    ∧ config.Validate Fixtures.fsEmpty
        { Fixtures.defaultConfig with
            AlertMode := true, BeepMode := true, Frequency := Float64.cZero }
        = some (errors_New "cannot use both --alert and --beep modes")
    ∧ config.Validate Fixtures.fsEmpty
        { Fixtures.defaultConfig with
            AlertMode := true, BeepMode := true, Frequency := Float64.cZero }
        ≠ some (errors_New "frequency must be positive") := by
  decide

/-- C8 (amended): with frequency <= 0, `Validate` fails, and the error is
"frequency must be positive" whenever the modes are not both set and the icon
is empty or passes its check; with frequency > 0 the frequency test is false
and `Validate` never returns the frequency error. -/
theorem Validate_frequency_check (fs : FileSystem) (c : config.Config) :
    (c.Frequency.leZero = true →
      (∃ e, config.Validate fs c = some e)
      ∧ (¬ (c.AlertMode = true ∧ c.BeepMode = true) →
          (c.Icon = "" ∨ config.validateIcon fs c = none) →
          config.Validate fs c = some (errors_New "frequency must be positive")))
    ∧ (c.Frequency.gtZero = true →
      c.Frequency.leZero = false
      ∧ config.Validate fs c ≠ some (errors_New "frequency must be positive")) := by
  constructor
  · intro hf
    constructor
    · cases hv : config.Validate fs c with
      | some e => exact ⟨e, rfl⟩
      | none =>
        have := (Validate_none_imp fs c hv).2.1
        rw [hf] at this; exact absurd this (by simp)
    · intro hm hi
      rw [Validate_of_checks_1_2 fs c hm hi, if_pos hf]
  · intro hg
    have hl := Float64.leZero_of_gtZero _ hg
    refine ⟨hl, ?_⟩
    rw [Validate_decision_list]
    split
    · decide
    · split
      · exact validateIcon_ne_frequency_error fs c
      · rw [if_neg (by rw [hl]; simp)]
        split
        · decide
        · simp

/-- C8 (amended) at the boundary values of `TestConfig_ValidateFrequencyBoundaries`:
0.0 and -0.001 rejected, 0.001 accepted. -/
theorem Validate_frequency_check_witness :
    config.Validate Fixtures.fsEmpty { Fixtures.defaultConfig with Frequency := Float64.cZero }
        = some (errors_New "frequency must be positive")
    ∧ config.Validate Fixtures.fsEmpty
        { Fixtures.defaultConfig with Frequency := Float64.cNegMilli }
        = some (errors_New "frequency must be positive")
    ∧ (({ Fixtures.defaultConfig with Frequency := Float64.cMilli }
          : config.Config).Frequency.leZero = false
      ∧ config.Validate Fixtures.fsEmpty
          { Fixtures.defaultConfig with Frequency := Float64.cMilli }
          ≠ some (errors_New "frequency must be positive"))
    ∧ config.Validate Fixtures.fsEmpty
        { Fixtures.defaultConfig with Frequency := Float64.cMilli } = none :=
  ⟨((Validate_frequency_check Fixtures.fsEmpty
        { Fixtures.defaultConfig with Frequency := Float64.cZero }).1 (by decide)).2
      (by decide) (Or.inl (by decide)),
    ((Validate_frequency_check Fixtures.fsEmpty
        { Fixtures.defaultConfig with Frequency := Float64.cNegMilli }).1 (by decide)).2
      (by decide) (Or.inl (by decide)),
    (Validate_frequency_check Fixtures.fsEmpty
        { Fixtures.defaultConfig with Frequency := Float64.cMilli }).2 (by decide),
    by decide⟩

/-- C9: with the modes not both set, an empty icon and frequency > 0,
`Validate` fails exactly when duration <= 0, and the only error it can then
return is "duration must be positive". -/
theorem Validate_duration_check (fs : FileSystem) (c : config.Config)
    (hm : ¬ (c.AlertMode = true ∧ c.BeepMode = true)) (hi : c.Icon = "")
    (hf : c.Frequency.gtZero = true) :
    (config.Validate fs c ≠ none ↔ c.Duration ≤ 0)
    ∧ (c.Duration ≤ 0 →
        config.Validate fs c = some (errors_New "duration must be positive"))
    ∧ (0 < c.Duration → config.Validate fs c = none) := by
  have hl := Float64.leZero_of_gtZero _ hf
  have hv := Validate_of_checks_1_2 fs c hm (Or.inl hi)
  rw [if_neg (by rw [hl]; simp)] at hv
  by_cases hd : c.Duration ≤ 0
  · rw [if_pos hd] at hv
    refine ⟨⟨fun _ => hd, fun _ => by rw [hv]; simp⟩, fun _ => hv, fun h => by omega⟩
  · rw [if_neg hd] at hv
    refine ⟨⟨fun h => absurd hv h, fun h => absurd h hd⟩, fun h => absurd h hd, fun _ => hv⟩

/-- C9 at the boundary values of `TestConfig_ValidateDurationBoundaries`:
1 accepted, 0 and -1 rejected. -/
theorem Validate_duration_check_witness :
    config.Validate Fixtures.fsEmpty { Fixtures.defaultConfig with Duration := 1 } = none
    ∧ config.Validate Fixtures.fsEmpty { Fixtures.defaultConfig with Duration := 0 }
        = some (errors_New "duration must be positive")
    ∧ config.Validate Fixtures.fsEmpty { Fixtures.defaultConfig with Duration := -1 }
        = some (errors_New "duration must be positive") :=
  ⟨(Validate_duration_check Fixtures.fsEmpty { Fixtures.defaultConfig with Duration := 1 }
      (by decide) rfl (by decide)).2.2 (by decide),
    (Validate_duration_check Fixtures.fsEmpty { Fixtures.defaultConfig with Duration := 0 }
      (by decide) rfl (by decide)).2.1 (by decide),
    (Validate_duration_check Fixtures.fsEmpty { Fixtures.defaultConfig with Duration := -1 }
      (by decide) rfl (by decide)).2.1 (by decide)⟩

/-! ## Bare icon names -/

theorem filepath_IsAbs_of_no_separator (path : String) (h : '/' ∉ path.data) :
    filepath_IsAbs path = false := by
  unfold filepath_IsAbs
  cases hp : path.data with
  | nil => rfl
  | cons x t =>
    rw [hp] at h
    have hx : ¬ ('/' = x) := fun e => h (by rw [e]; exact List.mem_cons_self _ _)
    show ('/' == x && ([] : List Char).isPrefixOf t) = false
    rw [beq_eq_false_iff_ne.mpr hx, Bool.false_and]

theorem dirPart_of_no_separator (path : List Char) (h : '/' ∉ path) :
    dirPart path = [] := by
  unfold dirPart
  rw [List.reverse_eq_nil_iff, List.dropWhile_eq_nil_iff]
  intro x hx
  have hx2 : x ≠ '/' := fun e => h (e ▸ List.mem_reverse.mp hx)
  simp [os_IsPathSeparator, hx2]

theorem filepath_Dir_of_no_separator (path : String) (h : '/' ∉ path.data) :
    filepath_Dir path = "." := by
  unfold filepath_Dir
  rw [dirPart_of_no_separator _ h]
  rfl

/-- A token without separator and without extension is taken as a stock icon
name: no file check is made. -/
theorem validateIcon_bare_name (fs : FileSystem) (c : config.Config)
    (hs : '/' ∉ c.Icon.data) (he : filepath_Ext c.Icon = "") :
    config.validateIcon fs c = none := by
  unfold config.validateIcon
  rw [filepath_IsAbs_of_no_separator _ hs, filepath_Dir_of_no_separator _ hs, he]
  simp

/-- C10: with the modes not both set, frequency > 0, duration > 0 and an icon
that is empty or a bare name (no separator, no extension), `Validate` succeeds
for every filesystem and whatever `AppName`, `Quiet` and `Version` are. -/
theorem Validate_bare_icon_ok (fs : FileSystem) (c : config.Config)
    (hm : ¬ (c.AlertMode = true ∧ c.BeepMode = true))
    (hf : c.Frequency.gtZero = true) (hd : 0 < c.Duration)
    (hi : c.Icon = "" ∨ ('/' ∉ c.Icon.data ∧ filepath_Ext c.Icon = "")) :
    config.Validate fs c = none := by
  have hi2 : c.Icon = "" ∨ config.validateIcon fs c = none := by
    rcases hi with h | ⟨h1, h2⟩
    · exact Or.inl h
    · exact Or.inr (validateIcon_bare_name fs c h1 h2)
  rw [Validate_of_checks_1_2 fs c hm hi2,
    if_neg (by rw [Float64.leZero_of_gtZero _ hf]; simp), if_neg (by omega)]

/-- C10 at the default configuration and at the stock icon name "warning". -/
theorem Validate_bare_icon_ok_witness :
    config.Validate Fixtures.fsEmpty Fixtures.defaultConfig = none
    ∧ config.Validate Fixtures.fsEmpty
        { Fixtures.defaultConfig with
            Icon := "warning", AppName := "", Quiet := true, Version := true } = none
    ∧ Fixtures.defaultConfig
        = ⟨false, false, "", "wsl-notify-send", Float64.c587, 500, false, false⟩ :=
  ⟨Validate_bare_icon_ok Fixtures.fsEmpty Fixtures.defaultConfig
      (by decide) (by decide) (by decide) (Or.inl rfl),
    Validate_bare_icon_ok Fixtures.fsEmpty
      { Fixtures.defaultConfig with
          Icon := "warning", AppName := "", Quiet := true, Version := true }
      (by decide) (by decide) (by decide) (Or.inr ⟨by decide, by decide⟩),
    rfl⟩

/-! ## Icon tokens with a separator -/

/-- A token that `validateIcon` sends to the file checks by its first two tests
(absolute, or directory other than ".") is rejected when nothing exists at it. -/
theorem validateIcon_path_not_found (fs : FileSystem) (c : config.Config)
    (hp : filepath_IsAbs c.Icon = true ∨ filepath_Dir c.Icon ≠ ".")
    (err : PathError) (hs : fs.Stat c.Icon = some err) (hn : err.notExist = true) :
    config.validateIcon fs c = some (errors_New ("icon file does not exist: " ++ c.Icon)) := by
  have hf : config.validateIconFile fs c
      = some (errors_New ("icon file does not exist: " ++ c.Icon)) := by
    simp only [config.validateIconFile, hs, hn, if_true]
  unfold config.validateIcon
  rcases hp with h | h
  · rw [if_pos h, hf]
  · by_cases ha : filepath_IsAbs c.Icon = true
    · rw [if_pos ha, hf]
    · rw [if_neg ha, if_pos h, hf]

/-- The absolute path of the test `TestConfig_ValidateIcon` (a path under a
temporary directory at which nothing exists) is rejected with IconNotFound. -/
theorem Validate_nonexistent_absolute :
    config.Validate Fixtures.fsEmpty
        { Fixtures.defaultConfig with Icon := "/tmp/TestConfig/001/nonexistent.png" }
      = some (errors_New "icon file does not exist: /tmp/TestConfig/001/nonexistent.png") := by
  decide

/-- C11 (the code at the failing input): the token "./nonexistent.png" contains
a directory separator and nothing exists at it, yet `filepath.Dir` of it is
".", so `validateIcon` takes it for a stock icon name, `Validate` succeeds, and
`processIcon` hands the token to the backend as a name without reading a file. -/
theorem Validate_accepts_dot_slash_token :
    '/' ∈ "./nonexistent.png".data
    ∧ Fixtures.fsEmpty.Stat "./nonexistent.png"
        = some ⟨"stat ./nonexistent.png: no such file or directory", true⟩
    ∧ filepath_Dir "./nonexistent.png" = "."
    ∧ config.validateIcon Fixtures.fsEmpty
        { Fixtures.defaultConfig with Icon := "./nonexistent.png" } = none
    ∧ config.Validate Fixtures.fsEmpty
        { Fixtures.defaultConfig with Icon := "./nonexistent.png" } = none
    ∧ cmd.Execute (Fixtures.envEmpty Fixtures.beeperOk)
        { Fixtures.defaultConfig with Icon := "./nonexistent.png" }
        ["T", "M"] notify.World.init
      = (.returned none,
          ⟨[.SetAppName "wsl-notify-send", .Notify "T" "M" (.str "./nonexistent.png")],
            [], []⟩) := by
  decide

/-! ## Extension check of existing files -/

theorem supportedExt_iff (ext : String) :
    Spec.supportedExt ext ↔
      (ext = ".png" ∨ ext = ".jpg" ∨ ext = ".jpeg" ∨ ext = ".ico" ∨ ext = ".bmp") := by
  unfold Spec.supportedExt
  simp

/-- On a path that `os.Stat` finds, the file check is the extension test. -/
theorem validateIconFile_of_exists (fs : FileSystem) (c : config.Config)
    (hs : fs.Stat c.Icon = none) :
    config.validateIconFile fs c =
      if Spec.supportedExt (filepath_Ext c.Icon) then none
      else some (errors_New ("unsupported icon format: " ++ filepath_Ext c.Icon
        ++ " (supported: .png, .jpg, .jpeg, .ico, .bmp)")) := by
  simp only [config.validateIconFile, hs, supportedExt_iff]

theorem filepath_IsAbs_ne_empty (path : String) (h : filepath_IsAbs path = true) :
    path ≠ "" := by
  intro he
  rw [he] at h
  exact absurd h (by decide)

theorem filepath_Ext_ne_empty (path : String) (h : filepath_Ext path ≠ "") :
    path ≠ "" := by
  intro he
  rw [he] at h
  exact h (by decide)

/-- C12: for an absolute icon path at which `os.Stat` succeeds, in a
configuration that is valid otherwise, `Validate` succeeds exactly when the
extension is one of .png, .jpg, .jpeg, .ico, .bmp (compared as strings, so
case-sensitively); otherwise it fails with "unsupported icon format: " followed
by the extension and the list of supported ones. -/
theorem Validate_absolute_existing (fs : FileSystem) (c : config.Config)
    (ha : filepath_IsAbs c.Icon = true) (hs : fs.Stat c.Icon = none)
    (hm : ¬ (c.AlertMode = true ∧ c.BeepMode = true))
    (hf : c.Frequency.gtZero = true) (hd : 0 < c.Duration) :
    (config.Validate fs c = none ↔ Spec.supportedExt (filepath_Ext c.Icon))
    ∧ (¬ Spec.supportedExt (filepath_Ext c.Icon) →
        config.Validate fs c
          = some (errors_New ("unsupported icon format: " ++ filepath_Ext c.Icon
              ++ " (supported: .png, .jpg, .jpeg, .ico, .bmp)"))) := by
  have hi : c.Icon ≠ "" := filepath_IsAbs_ne_empty _ ha
  have hv : config.validateIcon fs c = config.validateIconFile fs c := by
    unfold config.validateIcon
    rw [if_pos ha]
  rw [validateIconFile_of_exists fs c hs] at hv
  by_cases he : Spec.supportedExt (filepath_Ext c.Icon)
  · rw [if_pos he] at hv
    have hok : config.Validate fs c = none := by
      rw [Validate_of_checks_1_2 fs c hm (Or.inr hv),
        if_neg (by rw [Float64.leZero_of_gtZero _ hf]; simp), if_neg (by omega)]
    exact ⟨⟨fun _ => he, fun _ => hok⟩, fun h => absurd he h⟩
  · rw [if_neg he] at hv
    have hbad : config.Validate fs c
        = some (errors_New ("unsupported icon format: " ++ filepath_Ext c.Icon
            ++ " (supported: .png, .jpg, .jpeg, .ico, .bmp)")) := by
      rw [Validate_decision_list, if_neg hm, if_pos ⟨hi, by rw [hv]; rfl⟩, hv]
    refine ⟨⟨fun h => ?_, fun h => absurd h he⟩, fun _ => hbad⟩
    rw [hbad] at h
    exact absurd h (by simp)

/-- C12 at the three files of the tests: test.png accepted, test.PNG and
test.txt rejected with the extension named in the message. -/
theorem Validate_absolute_existing_witness :
    config.Validate
        (Fixtures.fsFiles [("/tmp/t/test.png", [1]), ("/tmp/t/test.PNG", [2]),
          ("/tmp/t/test.txt", [3])])
        { Fixtures.defaultConfig with Icon := "/tmp/t/test.png" } = none
    ∧ config.Validate
        (Fixtures.fsFiles [("/tmp/t/test.png", [1]), ("/tmp/t/test.PNG", [2]),
          ("/tmp/t/test.txt", [3])])
        { Fixtures.defaultConfig with Icon := "/tmp/t/test.PNG" }
      = some (errors_New ("unsupported icon format: " ++ filepath_Ext "/tmp/t/test.PNG"
          ++ " (supported: .png, .jpg, .jpeg, .ico, .bmp)"))
    ∧ config.Validate
        (Fixtures.fsFiles [("/tmp/t/test.png", [1]), ("/tmp/t/test.PNG", [2]),
          ("/tmp/t/test.txt", [3])])
        { Fixtures.defaultConfig with Icon := "/tmp/t/test.txt" }
      = some (errors_New ("unsupported icon format: " ++ filepath_Ext "/tmp/t/test.txt"
          ++ " (supported: .png, .jpg, .jpeg, .ico, .bmp)"))
    ∧ "unsupported icon format: " ++ filepath_Ext "/tmp/t/test.PNG"
          ++ " (supported: .png, .jpg, .jpeg, .ico, .bmp)"
        = "unsupported icon format: .PNG (supported: .png, .jpg, .jpeg, .ico, .bmp)" :=
  ⟨(Validate_absolute_existing _ { Fixtures.defaultConfig with Icon := "/tmp/t/test.png" }
      (by decide) (by decide) (by decide) (by decide) (by decide)).1.mpr (by decide),
    (Validate_absolute_existing _ { Fixtures.defaultConfig with Icon := "/tmp/t/test.PNG" }
      (by decide) (by decide) (by decide) (by decide) (by decide)).2 (by decide),
    (Validate_absolute_existing _ { Fixtures.defaultConfig with Icon := "/tmp/t/test.txt" }
      (by decide) (by decide) (by decide) (by decide) (by decide)).2 (by decide),
    by decide⟩

/-! ## Bare names with an extension -/

/-- C13: for a token with no directory separator and a non-empty extension,
when `os.Stat` finds an entry of that name the file checks apply (an
unsupported extension makes `Validate` fail with the unsupported-format error);
when it finds none the token is accepted as a stock icon name whatever the
extension is. -/
theorem Validate_bare_name_with_extension (fs : FileSystem) (c : config.Config)
    (hsep : '/' ∉ c.Icon.data) (hext : filepath_Ext c.Icon ≠ "") :
    (fs.Stat c.Icon = none →
      config.validateIcon fs c = config.validateIconFile fs c
      ∧ (¬ (c.AlertMode = true ∧ c.BeepMode = true) →
          ¬ Spec.supportedExt (filepath_Ext c.Icon) →
          config.Validate fs c
            = some (errors_New ("unsupported icon format: " ++ filepath_Ext c.Icon
                ++ " (supported: .png, .jpg, .jpeg, .ico, .bmp)"))))
    ∧ (fs.Stat c.Icon ≠ none →
      config.validateIcon fs c = none
      ∧ (¬ (c.AlertMode = true ∧ c.BeepMode = true) → c.Frequency.gtZero = true →
          0 < c.Duration → config.Validate fs c = none)) := by
  have hi : c.Icon ≠ "" := filepath_Ext_ne_empty _ hext
  have hv : config.validateIcon fs c =
      if fs.Stat c.Icon = none then config.validateIconFile fs c else none := by
    unfold config.validateIcon
    rw [filepath_IsAbs_of_no_separator _ hsep, filepath_Dir_of_no_separator _ hsep]
    simp [hext]
  constructor
  · intro hs
    rw [if_pos hs] at hv
    refine ⟨hv, fun hm he => ?_⟩
    rw [validateIconFile_of_exists fs c hs, if_neg he] at hv
    rw [Validate_decision_list, if_neg hm, if_pos ⟨hi, by rw [hv]; rfl⟩, hv]
  · intro hs
    rw [if_neg hs] at hv
    refine ⟨hv, fun hm hf hd => ?_⟩
    rw [Validate_of_checks_1_2 fs c hm (Or.inr hv),
      if_neg (by rw [Float64.leZero_of_gtZero _ hf]; simp), if_neg (by omega)]

/-- C13 at "notes.txt" present in the working directory (rejected) and at
"alert.png" and "notes.txt" absent from it (accepted as stock names). -/
theorem Validate_bare_name_with_extension_witness :
    config.Validate (Fixtures.fsFiles [("notes.txt", [1])])
        { Fixtures.defaultConfig with Icon := "notes.txt" }
      = some (errors_New ("unsupported icon format: " ++ filepath_Ext "notes.txt"
          ++ " (supported: .png, .jpg, .jpeg, .ico, .bmp)"))
    ∧ config.Validate Fixtures.fsEmpty
        { Fixtures.defaultConfig with Icon := "notes.txt" } = none
    ∧ config.Validate Fixtures.fsEmpty
        { Fixtures.defaultConfig with Icon := "alert.png" } = none :=
  ⟨((Validate_bare_name_with_extension (Fixtures.fsFiles [("notes.txt", [1])])
        { Fixtures.defaultConfig with Icon := "notes.txt" } (by decide) (by decide)).1
      (by decide)).2 (by decide) (by decide),
    ((Validate_bare_name_with_extension Fixtures.fsEmpty
        { Fixtures.defaultConfig with Icon := "notes.txt" } (by decide) (by decide)).2
      (by decide)).2 (by decide) (by decide) (by decide),
    ((Validate_bare_name_with_extension Fixtures.fsEmpty
        { Fixtures.defaultConfig with Icon := "alert.png" } (by decide) (by decide)).2
      (by decide)).2 (by decide) (by decide) (by decide)⟩

/-! ## Payload resolution -/

/-- What `notify.Notify` does once the payload is resolved: one `Notify` call
on the backend with that payload, after the calls made so far. -/
theorem Notify_of_processIcon_ok (fs : FileSystem) (b : notify.Beeper)
    (title message icon appName : String) (w w2 : notify.World) (d : notify.IconData)
    (h : notify.processIcon fs icon (notify.setAppName appName w) = (.ok d, w2)) :
    (notify.Notify fs b title message icon appName w).2
        = { w2 with calls := w2.calls ++ [.Notify title message d] }
    ∧ (notify.Notify fs b title message icon appName w).1
        = (b.Notify w2.calls title message d).map
            (fmt_Errorf_w "failed to send notification: ") := by
  simp only [notify.Notify, h]
  cases b.Notify w2.calls title message d <;> exact ⟨rfl, rfl⟩

/-- What `notify.Alert` does once the payload is resolved. -/
theorem Alert_of_processIcon_ok (fs : FileSystem) (b : notify.Beeper)
    (title message icon appName : String) (w w2 : notify.World) (d : notify.IconData)
    (h : notify.processIcon fs icon (notify.setAppName appName w) = (.ok d, w2)) :
    (notify.Alert fs b title message icon appName w).2
        = { w2 with calls := w2.calls ++ [.Alert title message d] }
    ∧ (notify.Alert fs b title message icon appName w).1
        = (b.Alert w2.calls title message d).map
            (fmt_Errorf_w "failed to send alert: ") := by
  simp only [notify.Alert, h]
  cases b.Alert w2.calls title message d <;> exact ⟨rfl, rfl⟩

/-- A token that is empty, or has neither separator nor extension, is resolved
to itself as a string and nothing is read. -/
theorem processIcon_bare_name (fs : FileSystem) (icon : String) (w : notify.World)
    (h : icon = "" ∨ ('/' ∉ icon.data ∧ filepath_Ext icon = "")) :
    notify.processIcon fs icon w = (.ok (.str icon), w) := by
  unfold notify.processIcon
  rcases h with h | ⟨hs, he⟩
  · rw [if_pos h, h]
  · by_cases h0 : icon = ""
    · rw [if_pos h0, h0]
    · rw [if_neg h0, filepath_IsAbs_of_no_separator _ hs,
        filepath_Dir_of_no_separator _ hs, he]
      simp

/-- C14: `processIcon` returns the empty string for the empty token and, for
every token with no directory separator and no extension, the token itself as
a string, for every filesystem and without any file read; `notify.Notify` and
`notify.Alert` then pass that same string to the backend. -/
theorem processIcon_passes_names_through (fs : FileSystem) (b : notify.Beeper)
    (title message icon appName : String) (w : notify.World) :
    notify.processIcon fs "" w = (.ok (.str ""), w)
    ∧ (('/' ∉ icon.data ∧ filepath_Ext icon = "") →
        notify.processIcon fs icon w = (.ok (.str icon), w)
        ∧ (notify.Notify fs b title message icon appName w).2
            = { w with calls := (notify.setAppName appName w).calls
                  ++ [.Notify title message (.str icon)] }
        ∧ (notify.Alert fs b title message icon appName w).2
            = { w with calls := (notify.setAppName appName w).calls
                  ++ [.Alert title message (.str icon)] }) := by
  refine ⟨processIcon_bare_name fs "" w (Or.inl rfl), fun h => ?_⟩
  have hp := processIcon_bare_name fs icon (notify.setAppName appName w) (Or.inr h)
  have hw : ∀ cs, ({ notify.setAppName appName w with calls := cs } : notify.World)
      = { w with calls := cs } := by
    intro cs
    unfold notify.setAppName
    split <;> rfl
  refine ⟨processIcon_bare_name fs icon w (Or.inr h), ?_, ?_⟩
  · rw [(Notify_of_processIcon_ok fs b title message icon appName w _ _ hp).1, hw]
  · rw [(Alert_of_processIcon_ok fs b title message icon appName w _ _ hp).1, hw]

/-- C14 at the stock icon name "warning", on a filesystem that even holds a
file of that name. -/
theorem processIcon_passes_names_through_witness :
    notify.processIcon (Fixtures.fsFiles [("warning", [7])]) "warning" notify.World.init
        = (.ok (.str "warning"), notify.World.init)
    ∧ (notify.Notify (Fixtures.fsFiles [("warning", [7])]) Fixtures.beeperOk
          "Title" "Message" "warning" "wsl-notify-send" notify.World.init).2
        = ⟨[.SetAppName "wsl-notify-send", .Notify "Title" "Message" (.str "warning")],
            [], []⟩ :=
  ⟨((processIcon_passes_names_through (Fixtures.fsFiles [("warning", [7])])
        Fixtures.beeperOk "Title" "Message" "warning" "wsl-notify-send"
        notify.World.init).2 ⟨by decide, by decide⟩).1,
    ((processIcon_passes_names_through (Fixtures.fsFiles [("warning", [7])])
        Fixtures.beeperOk "Title" "Message" "warning" "wsl-notify-send"
        notify.World.init).2 ⟨by decide, by decide⟩).2.1⟩

/-- A token classified as a file path is resolved by reading it. -/
theorem processIcon_of_classifiedAsFile (fs : FileSystem) (icon : String)
    (w : notify.World) (h : Spec.classifiedAsFile fs icon) :
    notify.processIcon fs icon w = notify.readIconFile fs icon w := by
  obtain ⟨h0, hc⟩ := h
  unfold notify.processIcon
  rw [if_neg h0]
  by_cases ha : filepath_IsAbs icon = true
  · rw [if_pos ha]
  · rw [if_neg ha]
    by_cases hd : filepath_Dir icon ≠ "."
    · rw [if_pos hd]
    · rw [if_neg hd]
      rcases hc with h1 | h1 | h1
      · exact absurd h1 ha
      · exact absurd h1 hd
      · rw [if_pos h1]

/-- C15: for a token classified as a file path, when the read succeeds with
content `data` the payload is exactly `data` as bytes and the backend's Notify
or Alert receives it; when the read fails with `e`, `processIcon` fails with
"cannot read icon file: " followed by the message of `e`. In both cases the
file is read once. -/
theorem processIcon_file_payload (fs : FileSystem) (b : notify.Beeper)
    (title message icon appName : String) (w : notify.World)
    (hc : Spec.classifiedAsFile fs icon) :
    (∀ data, fs.ReadFile icon = .ok data →
      notify.processIcon fs icon w
          = (.ok (.bytes data), { w with reads := w.reads ++ [icon] })
      ∧ (notify.Notify fs b title message icon appName w).2
          = { w with
              calls := (notify.setAppName appName w).calls
                ++ [.Notify title message (.bytes data)]
              reads := w.reads ++ [icon] }
      ∧ (notify.Alert fs b title message icon appName w).2
          = { w with
              calls := (notify.setAppName appName w).calls
                ++ [.Alert title message (.bytes data)]
              reads := w.reads ++ [icon] })
    ∧ (∀ e, fs.ReadFile icon = .error e →
      notify.processIcon fs icon w
          = (.error (fmt_Errorf_w "cannot read icon file: " e),
              { w with reads := w.reads ++ [icon] })
      ∧ (fmt_Errorf_w "cannot read icon file: " e).Error
          = "cannot read icon file: " ++ e.Error
      ∧ Spec.Occurs "cannot read icon file"
          (fmt_Errorf_w "cannot read icon file: " e).Error) := by
  have hr : ∀ w0, (notify.setAppName appName w0).reads = w0.reads := by
    intro w0; unfold notify.setAppName; split <;> rfl
  have ho : ∀ w0, (notify.setAppName appName w0).out = w0.out := by
    intro w0; unfold notify.setAppName; split <;> rfl
  constructor
  · intro data hd
    have hp : ∀ w0, notify.processIcon fs icon w0
        = (.ok (.bytes data), { w0 with reads := w0.reads ++ [icon] }) := by
      intro w0
      rw [processIcon_of_classifiedAsFile fs icon w0 hc]
      simp only [notify.readIconFile, hd]
    refine ⟨hp w, ?_, ?_⟩
    · rw [(Notify_of_processIcon_ok fs b title message icon appName w _ _ (hp _)).1]
      simp only [hr, ho]
    · rw [(Alert_of_processIcon_ok fs b title message icon appName w _ _ (hp _)).1]
      simp only [hr, ho]
  · intro e he
    refine ⟨?_, rfl, ?_⟩
    · rw [processIcon_of_classifiedAsFile fs icon w hc]
      simp only [notify.readIconFile, he]
    · exact occurs_append_left "cannot read icon file: " "cannot read icon file" e.Error
        (by decide)

/-- C15 at an existing file (its three bytes reach the backend's `Notify`) and
at an absolute path that cannot be read. -/
theorem processIcon_file_payload_witness :
    Spec.classifiedAsFile (Fixtures.fsFiles [("/tmp/t/test.png", [116, 101, 115])])
        "/tmp/t/test.png"
    ∧ (notify.Notify (Fixtures.fsFiles [("/tmp/t/test.png", [116, 101, 115])])
          Fixtures.beeperOk "Test" "Message" "/tmp/t/test.png" "" notify.World.init).2
        = ⟨[.Notify "Test" "Message" (.bytes [116, 101, 115])], ["/tmp/t/test.png"], []⟩
    ∧ notify.processIcon Fixtures.fsUnreadable "/tmp/t/test.png" notify.World.init
        = (.error (fmt_Errorf_w "cannot read icon file: "
              (errors_New "open /tmp/t/test.png: permission denied")),
            ⟨[], ["/tmp/t/test.png"], []⟩) :=
  ⟨by decide,
    ((processIcon_file_payload (Fixtures.fsFiles [("/tmp/t/test.png", [116, 101, 115])])
        Fixtures.beeperOk "Test" "Message" "/tmp/t/test.png" "" notify.World.init
        (by decide)).1 [116, 101, 115] rfl).2.1,
    ((processIcon_file_payload Fixtures.fsUnreadable
        Fixtures.beeperOk "Test" "Message" "/tmp/t/test.png" "" notify.World.init
        (by decide)).2 (errors_New "open /tmp/t/test.png: permission denied") rfl).1⟩

/-! ## The argument-count check -/

/-- The check `rootCmd.Args` by cases: nothing is counted in version or beep
mode; otherwise zero arguments and more than two are errors. -/
theorem Args_eq (cfg : config.Config) (args : List String) :
    cmd.Args cfg args =
      if cfg.Version = true ∨ cfg.BeepMode = true then none
      else if args.length = 0 then some (errors_New "requires at least a title argument")
      else if 2 < args.length then
        some (errors_New "too many arguments, expected: <title> [message]")
      else none := by
  unfold cmd.Args
  cases hv : cfg.Version <;> cases hb : cfg.BeepMode <;>
    simp [Nat.lt_one_iff]

/-- C16: with `Version` and `BeepMode` both false the argument count is checked
before `Validate`: zero arguments give "requires at least a title argument",
more than two give "too many arguments, expected: <title> [message]", for every
configuration (the result does not depend on what `Validate` would return) and
with no effect outside. -/
theorem Execute_argument_count_first (env : cmd.Env) (cfg : config.Config)
    (args : List String) (w : notify.World)
    (hv : cfg.Version = false) (hb : cfg.BeepMode = false) :
    (args.length = 0 →
      cmd.Execute env cfg args w
        = (.returned (some (errors_New "requires at least a title argument")), w))
    ∧ (2 < args.length →
      cmd.Execute env cfg args w
        = (.returned (some (errors_New "too many arguments, expected: <title> [message]")),
            w)) := by
  have hm : ¬ (cfg.Version = true ∨ cfg.BeepMode = true) := by simp [hv, hb]
  constructor
  · intro h0
    have ha : cmd.Args cfg args
        = some (errors_New "requires at least a title argument") := by
      rw [Args_eq, if_neg hm, if_pos h0]
    simp only [cmd.Execute, ha]
  · intro h2
    have ha : cmd.Args cfg args
        = some (errors_New "too many arguments, expected: <title> [message]") := by
      rw [Args_eq, if_neg hm, if_neg (by omega), if_pos h2]
    simp only [cmd.Execute, ha]

/-- C16 at a configuration that `Validate` rejects (duration 0, missing icon
file): the error is the argument error all the same. -/
theorem Execute_argument_count_first_witness :
    config.Validate (Fixtures.envEmpty Fixtures.beeperOk).fs
        { Fixtures.defaultConfig with Icon := "/no/such/file.png", Duration := 0 }
      = some (errors_New "icon file does not exist: /no/such/file.png")
    ∧ cmd.Execute (Fixtures.envEmpty Fixtures.beeperOk)
        { Fixtures.defaultConfig with Icon := "/no/such/file.png", Duration := 0 }
        [] notify.World.init
      = (.returned (some (errors_New "requires at least a title argument")),
          notify.World.init)
    ∧ cmd.Execute (Fixtures.envEmpty Fixtures.beeperOk)
        { Fixtures.defaultConfig with Icon := "/no/such/file.png", Duration := 0 }
        ["title", "message", "extra"] notify.World.init
      = (.returned (some (errors_New "too many arguments, expected: <title> [message]")),
          notify.World.init) :=
  ⟨by decide,
    (Execute_argument_count_first (Fixtures.envEmpty Fixtures.beeperOk)
      { Fixtures.defaultConfig with Icon := "/no/such/file.png", Duration := 0 }
      [] notify.World.init rfl rfl).1 rfl,
    (Execute_argument_count_first (Fixtures.envEmpty Fixtures.beeperOk)
      { Fixtures.defaultConfig with Icon := "/no/such/file.png", Duration := 0 }
      ["title", "message", "extra"] notify.World.init rfl rfl).2 (by decide)⟩

/-- C17 (as stated, refuted): in beep mode four positional arguments are not an
error (the run beeps and succeeds), and in version mode three are not either. -/
theorem surplus_arguments_accepted :
    cmd.Args { Fixtures.defaultConfig with BeepMode := true }
        ["This", "Should", "Be", "Ignored"] = none
    ∧ cmd.Execute (Fixtures.envEmpty Fixtures.beeperOk)
        { Fixtures.defaultConfig with BeepMode := true }
        ["This", "Should", "Be", "Ignored"] notify.World.init
      = (.returned none, ⟨[.Beep Float64.c587 500], [], []⟩)
    ∧ cmd.Execute (Fixtures.envEmpty Fixtures.beeperOk)
        { Fixtures.defaultConfig with Version := true }
        ["a", "b", "c"] notify.World.init
      = (.returned none, ⟨[], [], ["wsl-notify-send version 0.1.0\n"]⟩) := by
  decide

/-- C17 (amended): with three or more positional arguments, a configuration
with `Version` and `BeepMode` both false is rejected with "too many arguments,
expected: <title> [message]" and nothing else happens; in version mode and in
beep mode the argument check passes whatever the number of arguments. -/
theorem too_many_arguments_by_mode (env : cmd.Env) (cfg : config.Config)
    (args : List String) (w : notify.World) (h3 : 3 ≤ args.length) :
    (cfg.Version = false → cfg.BeepMode = false →
      cmd.Args cfg args
        = some (errors_New "too many arguments, expected: <title> [message]")
      ∧ cmd.Execute env cfg args w
        = (.returned (some (errors_New "too many arguments, expected: <title> [message]")),
            w))
    ∧ ((cfg.Version = true ∨ cfg.BeepMode = true) → cmd.Args cfg args = none) := by
  constructor
  · intro hv hb
    have ha : cmd.Args cfg args
        = some (errors_New "too many arguments, expected: <title> [message]") := by
      rw [Args_eq, if_neg (by simp [hv, hb]), if_neg (by omega), if_pos (by omega)]
    exact ⟨ha, by simp only [cmd.Execute, ha]⟩
  · intro hm
    rw [Args_eq, if_pos hm]

/-- C17 (amended) at the three arguments of `TestRootCommand_TooManyArgumentsError`
in notification mode, and at the same arguments in beep mode. -/
theorem too_many_arguments_by_mode_witness :
    cmd.Execute (Fixtures.envEmpty Fixtures.beeperOk) Fixtures.defaultConfig
        ["title", "message", "extra"] notify.World.init
      = (.returned (some (errors_New "too many arguments, expected: <title> [message]")),
          notify.World.init)
    ∧ cmd.Args { Fixtures.defaultConfig with BeepMode := true }
        ["title", "message", "extra"] = none :=
  ⟨((too_many_arguments_by_mode (Fixtures.envEmpty Fixtures.beeperOk)
        Fixtures.defaultConfig ["title", "message", "extra"] notify.World.init
        (by decide)).1 rfl rfl).2,
    (too_many_arguments_by_mode (Fixtures.envEmpty Fixtures.beeperOk)
        { Fixtures.defaultConfig with BeepMode := true }
        ["title", "message", "extra"] notify.World.init (by decide)).2 (Or.inr rfl)⟩

/-! ## The three modes of the dispatcher -/

/-- C18: in beep mode (`Version` false, `BeepMode` true) with a configuration
that passes `Validate`, for every list of positional arguments the argument
check passes, the run makes exactly one backend call, `Beep` with the
configured frequency and duration, reads no file and prints nothing, and it
returns no error exactly when `Beep` returns none (otherwise the error of
`Beep` wrapped as "failed to beep: ..."). -/
theorem Execute_beep_mode (env : cmd.Env) (cfg : config.Config)
    (args : List String) (w : notify.World)
    (hv : cfg.Version = false) (hb : cfg.BeepMode = true)
    (hval : config.Validate env.fs cfg = none) :
    cmd.Args cfg args = none
    ∧ (cmd.Execute env cfg args w).2
        = { w with calls := w.calls ++ [.Beep cfg.Frequency cfg.Duration] }
    ∧ (cmd.Execute env cfg args w).1
        = .returned ((env.beeper.Beep w.calls cfg.Frequency cfg.Duration).map
            (fmt_Errorf_w "failed to beep: "))
    ∧ ((cmd.Execute env cfg args w).1 = .returned none
        ↔ env.beeper.Beep w.calls cfg.Frequency cfg.Duration = none) := by
  have ha : cmd.Args cfg args = none := by
    rw [Args_eq, if_pos (Or.inr hb)]
  have he : cmd.Execute env cfg args w
      = ((notify.Beep env.beeper cfg.Frequency cfg.Duration w).1 |> .returned,
          (notify.Beep env.beeper cfg.Frequency cfg.Duration w).2) := by
    simp only [cmd.Execute, ha, cmd.RunE, hv, hval, hb, Bool.false_eq_true, if_false,
      if_true]
  rw [he]
  unfold notify.Beep
  cases hbp : env.beeper.Beep w.calls cfg.Frequency cfg.Duration with
  | none => exact ⟨ha, rfl, rfl, by simp⟩
  | some e => exact ⟨ha, rfl, rfl, by simp⟩

/-- C18 at the four arguments of `TestRootCommand_BeepModeWithTitle`, with a
backend that succeeds and with one whose `Beep` fails. -/
theorem Execute_beep_mode_witness :
    cmd.Execute (Fixtures.envEmpty Fixtures.beeperOk)
        { Fixtures.defaultConfig with BeepMode := true }
        ["This", "Should", "Be", "Ignored"] notify.World.init
      = (.returned none, ⟨[.Beep Float64.c587 500], [], []⟩)
    ∧ (cmd.Execute (Fixtures.envEmpty (Fixtures.beeperFailing (errors_New "beep error")))
        { Fixtures.defaultConfig with BeepMode := true }
        ["This", "Should", "Be", "Ignored"] notify.World.init).1
      = .returned (some (fmt_Errorf_w "failed to beep: " (errors_New "beep error"))) :=
  ⟨Prod.ext
      ((Execute_beep_mode (Fixtures.envEmpty Fixtures.beeperOk)
        { Fixtures.defaultConfig with BeepMode := true }
        ["This", "Should", "Be", "Ignored"] notify.World.init rfl rfl (by decide)).2.2.1)
      ((Execute_beep_mode (Fixtures.envEmpty Fixtures.beeperOk)
        { Fixtures.defaultConfig with BeepMode := true }
        ["This", "Should", "Be", "Ignored"] notify.World.init rfl rfl (by decide)).2.1),
    (Execute_beep_mode (Fixtures.envEmpty (Fixtures.beeperFailing (errors_New "beep error")))
        { Fixtures.defaultConfig with BeepMode := true }
        ["This", "Should", "Be", "Ignored"] notify.World.init rfl rfl (by decide)).2.2.1⟩

/-- C19: with `Version` true the run succeeds for every list of positional
arguments and every value of the other fields; its only effect is to print
"wsl-notify-send version <Version>" and a newline: no backend call, no file
read, and `Validate` plays no part. -/
theorem Execute_version_mode (env : cmd.Env) (cfg : config.Config)
    (args : List String) (w : notify.World) (hv : cfg.Version = true) :
    cmd.Execute env cfg args w
      = (.returned none,
          { w with out := w.out ++ ["wsl-notify-send version " ++ env.Version ++ "\n"] }) := by
  have ha : cmd.Args cfg args = none := by
    rw [Args_eq, if_pos (Or.inl hv)]
  simp only [cmd.Execute, ha, cmd.RunE, hv, if_true]

/-- C19 at a configuration with both modes set, a missing icon file, frequency
-100 and duration 0, with four positional arguments. -/
theorem Execute_version_mode_witness :
    config.Validate (Fixtures.envEmpty Fixtures.beeperOk).fs
        { Fixtures.defaultConfig with
            AlertMode := true, BeepMode := true, Icon := "/no/such/file.png",
            Frequency := Float64.cNeg100, Duration := 0, Version := true }
      = some (errors_New "cannot use both --alert and --beep modes")
    ∧ cmd.Execute (Fixtures.envEmpty Fixtures.beeperOk)
        { Fixtures.defaultConfig with
            AlertMode := true, BeepMode := true, Icon := "/no/such/file.png",
            Frequency := Float64.cNeg100, Duration := 0, Version := true }
        ["This", "Should", "Be", "Ignored"] notify.World.init
      = (.returned none, ⟨[], [], ["wsl-notify-send version 0.1.0\n"]⟩) :=
  ⟨by decide,
    Execute_version_mode (Fixtures.envEmpty Fixtures.beeperOk)
      { Fixtures.defaultConfig with
          AlertMode := true, BeepMode := true, Icon := "/no/such/file.png",
          Frequency := Float64.cNeg100, Duration := 0, Version := true }
      ["This", "Should", "Be", "Ignored"] notify.World.init rfl⟩

/-- The run in notification or alert mode with one or two arguments: it is the
call of `notify.Alert` or `notify.Notify` on the title and the message. -/
theorem Execute_send (env : cmd.Env) (cfg : config.Config) (title : String)
    (rest : List String) (w : notify.World)
    (hv : cfg.Version = false) (hb : cfg.BeepMode = false)
    (hval : config.Validate env.fs cfg = none) (hr : rest.length ≤ 1) :
    cmd.Execute env cfg (title :: rest) w =
      if cfg.AlertMode = true then
        (.returned (notify.Alert env.fs env.beeper title (rest.headD "") cfg.Icon
            cfg.AppName w).1,
          (notify.Alert env.fs env.beeper title (rest.headD "") cfg.Icon cfg.AppName w).2)
      else
        (.returned (notify.Notify env.fs env.beeper title (rest.headD "") cfg.Icon
            cfg.AppName w).1,
          (notify.Notify env.fs env.beeper title (rest.headD "") cfg.Icon cfg.AppName w).2) := by
  have ha : cmd.Args cfg (title :: rest) = none := by
    rw [Args_eq, if_neg (by simp [hv, hb]), if_neg (by simp),
      if_neg (by simp only [List.length_cons]; omega)]
  have hmsg : (if (title :: rest).length > 1 then rest.headD "" else "") = rest.headD "" := by
    cases rest with
    | nil => rfl
    | cons x t => simp
  simp only [cmd.Execute, ha, cmd.RunE, hv, hval, hb, Bool.false_eq_true, if_false, hmsg]

/-- C20: in notification or alert mode with a configuration that passes
`Validate`, one argument `a` is sent as title `a` with the empty message, two
arguments `a`, `b` as title `a` with message `b`: the run is the call of
`notify.Alert` (alert mode) or `notify.Notify` on exactly these strings, and
once the icon payload is resolved the backend call carries them unchanged. -/
theorem Execute_title_message (env : cmd.Env) (cfg : config.Config) (a b : String)
    (w : notify.World) (hv : cfg.Version = false) (hb : cfg.BeepMode = false)
    (hval : config.Validate env.fs cfg = none) :
    (cfg.AlertMode = false →
      cmd.Execute env cfg [a] w
        = (.returned (notify.Notify env.fs env.beeper a "" cfg.Icon cfg.AppName w).1,
            (notify.Notify env.fs env.beeper a "" cfg.Icon cfg.AppName w).2)
      ∧ cmd.Execute env cfg [a, b] w
        = (.returned (notify.Notify env.fs env.beeper a b cfg.Icon cfg.AppName w).1,
            (notify.Notify env.fs env.beeper a b cfg.Icon cfg.AppName w).2)
      ∧ ∀ d w2, notify.processIcon env.fs cfg.Icon (notify.setAppName cfg.AppName w)
            = (.ok d, w2) →
          (cmd.Execute env cfg [a] w).2.calls = w2.calls ++ [.Notify a "" d]
          ∧ (cmd.Execute env cfg [a, b] w).2.calls = w2.calls ++ [.Notify a b d])
    ∧ (cfg.AlertMode = true →
      cmd.Execute env cfg [a] w
        = (.returned (notify.Alert env.fs env.beeper a "" cfg.Icon cfg.AppName w).1,
            (notify.Alert env.fs env.beeper a "" cfg.Icon cfg.AppName w).2)
      ∧ cmd.Execute env cfg [a, b] w
        = (.returned (notify.Alert env.fs env.beeper a b cfg.Icon cfg.AppName w).1,
            (notify.Alert env.fs env.beeper a b cfg.Icon cfg.AppName w).2)
      ∧ ∀ d w2, notify.processIcon env.fs cfg.Icon (notify.setAppName cfg.AppName w)
            = (.ok d, w2) →
          (cmd.Execute env cfg [a] w).2.calls = w2.calls ++ [.Alert a "" d]
          ∧ (cmd.Execute env cfg [a, b] w).2.calls = w2.calls ++ [.Alert a b d]) := by
  have h1 := Execute_send env cfg a [] w hv hb hval (by simp)
  have h2 := Execute_send env cfg a [b] w hv hb hval (by simp)
  constructor
  · intro hm
    rw [if_neg (by simp [hm])] at h1 h2
    refine ⟨h1, h2, fun d w2 hp => ?_⟩
    rw [h1, h2]
    exact ⟨by rw [(Notify_of_processIcon_ok _ _ _ _ _ _ _ _ _ hp).1]; rfl,
      by rw [(Notify_of_processIcon_ok _ _ _ _ _ _ _ _ _ hp).1]; rfl⟩
  · intro hm
    rw [if_pos hm] at h1 h2
    refine ⟨h1, h2, fun d w2 hp => ?_⟩
    rw [h1, h2]
    exact ⟨by rw [(Alert_of_processIcon_ok _ _ _ _ _ _ _ _ _ hp).1]; rfl,
      by rw [(Alert_of_processIcon_ok _ _ _ _ _ _ _ _ _ hp).1]; rfl⟩

/-- C20 at the inputs of `TestRootCommand_TitleOnly` and
`TestRootCommand_BasicNotification`. -/
theorem Execute_title_message_witness :
    cmd.Execute (Fixtures.envEmpty Fixtures.beeperOk) Fixtures.defaultConfig
        ["Just Title"] notify.World.init
      = (.returned none,
          ⟨[.SetAppName "wsl-notify-send", .Notify "Just Title" "" (.str "")], [], []⟩)
    ∧ cmd.Execute (Fixtures.envEmpty Fixtures.beeperOk) Fixtures.defaultConfig
        ["Test Title", "Test Message"] notify.World.init
      = (.returned none,
          ⟨[.SetAppName "wsl-notify-send", .Notify "Test Title" "Test Message" (.str "")],
            [], []⟩) :=
  ⟨((Execute_title_message (Fixtures.envEmpty Fixtures.beeperOk) Fixtures.defaultConfig
        "Just Title" "unused" notify.World.init rfl rfl (by decide)).1 rfl).1,
    ((Execute_title_message (Fixtures.envEmpty Fixtures.beeperOk) Fixtures.defaultConfig
        "Test Title" "Test Message" notify.World.init rfl rfl (by decide)).1 rfl).2.1⟩

/-! ## The application name -/

theorem setAppName_eq (appName : String) (w : notify.World) :
    notify.setAppName appName w
      = { w with calls := w.calls ++ (if appName ≠ "" then [.SetAppName appName] else []) } := by
  unfold notify.setAppName
  split <;> simp

/-- Payload resolution makes no backend call and prints nothing; it reads the
token at most once. -/
theorem processIcon_effects (fs : FileSystem) (icon : String) (w : notify.World) :
    (notify.processIcon fs icon w).2.calls = w.calls
    ∧ (notify.processIcon fs icon w).2.out = w.out
    ∧ ((notify.processIcon fs icon w).2.reads = w.reads
      ∨ (notify.processIcon fs icon w).2.reads = w.reads ++ [icon]) := by
  have hr : (notify.readIconFile fs icon w).2.calls = w.calls
      ∧ (notify.readIconFile fs icon w).2.out = w.out
      ∧ ((notify.readIconFile fs icon w).2.reads = w.reads
        ∨ (notify.readIconFile fs icon w).2.reads = w.reads ++ [icon]) := by
    unfold notify.readIconFile
    cases fs.ReadFile icon <;> exact ⟨rfl, rfl, Or.inr rfl⟩
  unfold notify.processIcon
  split
  · exact ⟨rfl, rfl, Or.inl rfl⟩
  · split
    · exact hr
    · split
      · exact hr
      · split
        · exact hr
        · exact ⟨rfl, rfl, Or.inl rfl⟩

/-- The calls of `notify.Notify`: the `SetAppName` call when the name is not
empty, then the send unless payload resolution failed. -/
theorem Notify_calls (fs : FileSystem) (b : notify.Beeper)
    (title message icon appName : String) (w : notify.World) :
    ∃ rest, (notify.Notify fs b title message icon appName w).2.calls
        = w.calls ++ (if appName ≠ "" then [.SetAppName appName] else []) ++ rest
      ∧ (rest = [] ∨ ∃ d, rest = [.Notify title message d]) := by
  have hc := (processIcon_effects fs icon (notify.setAppName appName w)).1
  rw [setAppName_eq] at hc
  cases hp : notify.processIcon fs icon (notify.setAppName appName w) with
  | mk res w2 =>
    rw [setAppName_eq] at hp
    rw [hp] at hc
    cases res with
    | error e =>
      refine ⟨[], ?_, Or.inl rfl⟩
      simp only [notify.Notify, setAppName_eq, hp, List.append_nil]
      exact hc
    | ok d =>
      refine ⟨[.Notify title message d], ?_, Or.inr ⟨d, rfl⟩⟩
      rw [← setAppName_eq] at hp
      rw [(Notify_of_processIcon_ok fs b title message icon appName w w2 d hp).1]
      show w2.calls ++ _ = _
      rw [show w2.calls = _ from hc]

/-- The calls of `notify.Alert`, as for `notify.Notify`. -/
theorem Alert_calls (fs : FileSystem) (b : notify.Beeper)
    (title message icon appName : String) (w : notify.World) :
    ∃ rest, (notify.Alert fs b title message icon appName w).2.calls
        = w.calls ++ (if appName ≠ "" then [.SetAppName appName] else []) ++ rest
      ∧ (rest = [] ∨ ∃ d, rest = [.Alert title message d]) := by
  have hc := (processIcon_effects fs icon (notify.setAppName appName w)).1
  rw [setAppName_eq] at hc
  cases hp : notify.processIcon fs icon (notify.setAppName appName w) with
  | mk res w2 =>
    rw [setAppName_eq] at hp
    rw [hp] at hc
    cases res with
    | error e =>
      refine ⟨[], ?_, Or.inl rfl⟩
      simp only [notify.Alert, setAppName_eq, hp, List.append_nil]
      exact hc
    | ok d =>
      refine ⟨[.Alert title message d], ?_, Or.inr ⟨d, rfl⟩⟩
      rw [← setAppName_eq] at hp
      rw [(Alert_of_processIcon_ok fs b title message icon appName w w2 d hp).1]
      show w2.calls ++ _ = _
      rw [show w2.calls = _ from hc]

/-- C21: with a non-empty `appName`, `notify.Notify` and `notify.Alert` are the
`SetAppName(appName)` call followed by the run without application name, so
the call precedes payload resolution and the send; the calls they add are that
one `SetAppName` (none when `appName` is empty) followed by at most the send,
so `SetAppName` is called exactly once, resp. never. -/
theorem SetAppName_once_and_first (fs : FileSystem) (b : notify.Beeper)
    (title message icon appName : String) (w : notify.World) :
    (appName ≠ "" →
      notify.Notify fs b title message icon appName w
        = notify.Notify fs b title message icon ""
            { w with calls := w.calls ++ [.SetAppName appName] }
      ∧ notify.Alert fs b title message icon appName w
        = notify.Alert fs b title message icon ""
            { w with calls := w.calls ++ [.SetAppName appName] })
    ∧ (∃ rest, (notify.Notify fs b title message icon appName w).2.calls
          = w.calls ++ (if appName ≠ "" then [.SetAppName appName] else []) ++ rest
        ∧ (rest = [] ∨ ∃ d, rest = [.Notify title message d]))
    ∧ (∃ rest, (notify.Alert fs b title message icon appName w).2.calls
          = w.calls ++ (if appName ≠ "" then [.SetAppName appName] else []) ++ rest
        ∧ (rest = [] ∨ ∃ d, rest = [.Alert title message d])) := by
  refine ⟨fun h => ?_, Notify_calls fs b title message icon appName w,
    Alert_calls fs b title message icon appName w⟩
  have h1 : notify.setAppName appName w
      = { w with calls := w.calls ++ [.SetAppName appName] } := by
    rw [setAppName_eq, if_pos h]
  have h2 : ∀ w0 : notify.World, notify.setAppName "" w0 = w0 := by
    intro w0
    unfold notify.setAppName
    rw [if_neg (by simp)]
  constructor
  · unfold notify.Notify
    rw [h1, h2]
  · unfold notify.Alert
    rw [h1, h2]

/-- C21 at the default application name: with all defaults and the arguments
"Test" "Message" the calls are SetAppName("wsl-notify-send") and then
Notify("Test","Message",""), the run succeeds and the exit code is 0; with an
empty name there is no SetAppName call. -/
theorem SetAppName_once_and_first_witness :
    notify.Notify Fixtures.fsEmpty Fixtures.beeperOk "Test" "Message" "" "wsl-notify-send"
        notify.World.init
      = notify.Notify Fixtures.fsEmpty Fixtures.beeperOk "Test" "Message" "" ""
          ⟨[.SetAppName "wsl-notify-send"], [], []⟩
    ∧ cmd.Execute (Fixtures.envEmpty Fixtures.beeperOk) Fixtures.defaultConfig
        ["Test", "Message"] notify.World.init
      = (.returned none,
          ⟨[.SetAppName "wsl-notify-send", .Notify "Test" "Message" (.str "")], [], []⟩)
    ∧ (main.main (Fixtures.envEmpty Fixtures.beeperOk) Fixtures.defaultConfig
        ["Test", "Message"] notify.World.init).1 = ⟨0, []⟩
    ∧ notify.Notify Fixtures.fsEmpty Fixtures.beeperOk "Test" "Message" "" ""
        notify.World.init
      = (none, ⟨[.Notify "Test" "Message" (.str "")], [], []⟩) :=
  ⟨((SetAppName_once_and_first Fixtures.fsEmpty Fixtures.beeperOk "Test" "Message" ""
      "wsl-notify-send" notify.World.init).1 (by decide)).1,
    by decide, by decide, by decide⟩

/-! ## Alert or Notify -/

/-- C22: with `Version` and `BeepMode` false, a configuration that passes
`Validate`, one or two arguments and an icon whose payload resolves to `d`, the
calls of the run are the `SetAppName` call (when the name is not empty)
followed by exactly one send with the title, the message and `d`: `Alert` when
`AlertMode` is true, `Notify` when it is false. -/
theorem Execute_alert_or_notify (env : cmd.Env) (cfg : config.Config) (title : String)
    (rest : List String) (w w2 : notify.World) (d : notify.IconData)
    (hv : cfg.Version = false) (hb : cfg.BeepMode = false)
    (hval : config.Validate env.fs cfg = none) (hr : rest.length ≤ 1)
    (hp : notify.processIcon env.fs cfg.Icon (notify.setAppName cfg.AppName w)
      = (.ok d, w2)) :
    (cmd.Execute env cfg (title :: rest) w).2.calls
      = w.calls ++ (if cfg.AppName ≠ "" then [.SetAppName cfg.AppName] else [])
        ++ [if cfg.AlertMode = true then .Alert title (rest.headD "") d
            else .Notify title (rest.headD "") d] := by
  have hc : w2.calls
      = w.calls ++ (if cfg.AppName ≠ "" then [.SetAppName cfg.AppName] else []) := by
    have h := (processIcon_effects env.fs cfg.Icon (notify.setAppName cfg.AppName w)).1
    rw [hp, setAppName_eq] at h
    exact h
  rw [Execute_send env cfg title rest w hv hb hval hr]
  by_cases hm : cfg.AlertMode = true
  · rw [if_pos hm, if_pos hm]
    show (notify.Alert env.fs env.beeper title (rest.headD "") cfg.Icon cfg.AppName w).2.calls
      = _
    rw [(Alert_of_processIcon_ok _ _ _ _ _ _ _ _ _ hp).1, ← hc]
  · rw [if_neg hm, if_neg hm]
    show (notify.Notify env.fs env.beeper title (rest.headD "") cfg.Icon cfg.AppName w).2.calls
      = _
    rw [(Notify_of_processIcon_ok _ _ _ _ _ _ _ _ _ hp).1, ← hc]

/-- C22 at the inputs of `TestRootCommand_AllFlagsTogethert` (alert, file icon,
application name "TestApp") and at the same configuration without alert. -/
theorem Execute_alert_or_notify_witness :
    (cmd.Execute
        ⟨Fixtures.fsFiles [("/tmp/t/test.png", [116, 101, 115, 116])], Fixtures.beeperOk,
          "0.1.0"⟩
        { Fixtures.defaultConfig with
            AlertMode := true, Icon := "/tmp/t/test.png", AppName := "TestApp",
            Quiet := true }
        ["Test", "Message"] notify.World.init).2.calls
      = [.SetAppName "TestApp", .Alert "Test" "Message" (.bytes [116, 101, 115, 116])]
    ∧ (cmd.Execute
        ⟨Fixtures.fsFiles [("/tmp/t/test.png", [116, 101, 115, 116])], Fixtures.beeperOk,
          "0.1.0"⟩
        { Fixtures.defaultConfig with Icon := "/tmp/t/test.png", AppName := "TestApp" }
        ["Test", "Message"] notify.World.init).2.calls
      = [.SetAppName "TestApp", .Notify "Test" "Message" (.bytes [116, 101, 115, 116])] :=
  ⟨Execute_alert_or_notify
      ⟨Fixtures.fsFiles [("/tmp/t/test.png", [116, 101, 115, 116])], Fixtures.beeperOk,
        "0.1.0"⟩
      { Fixtures.defaultConfig with
          AlertMode := true, Icon := "/tmp/t/test.png", AppName := "TestApp", Quiet := true }
      "Test" ["Message"] notify.World.init
      ⟨[.SetAppName "TestApp"], ["/tmp/t/test.png"], []⟩ (.bytes [116, 101, 115, 116])
      rfl rfl (by decide) (by decide) rfl,
    Execute_alert_or_notify
      ⟨Fixtures.fsFiles [("/tmp/t/test.png", [116, 101, 115, 116])], Fixtures.beeperOk,
        "0.1.0"⟩
      { Fixtures.defaultConfig with Icon := "/tmp/t/test.png", AppName := "TestApp" }
      "Test" ["Message"] notify.World.init
      ⟨[.SetAppName "TestApp"], ["/tmp/t/test.png"], []⟩ (.bytes [116, 101, 115, 116])
      rfl rfl (by decide) (by decide) rfl⟩

/-! ## At most one delivery and one read -/

theorem Notify_reads (fs : FileSystem) (b : notify.Beeper)
    (title message icon appName : String) (w : notify.World) :
    (notify.Notify fs b title message icon appName w).2.reads = w.reads
    ∨ (notify.Notify fs b title message icon appName w).2.reads = w.reads ++ [icon] := by
  have h := (processIcon_effects fs icon (notify.setAppName appName w)).2.2
  have hs : (notify.setAppName appName w).reads = w.reads := by rw [setAppName_eq]
  rw [hs] at h
  cases hp : notify.processIcon fs icon (notify.setAppName appName w) with
  | mk res w2 =>
    rw [hp] at h
    cases res with
    | error e => simpa only [notify.Notify, hp] using h
    | ok d =>
      rw [(Notify_of_processIcon_ok fs b title message icon appName w w2 d hp).1]
      exact h

theorem Alert_reads (fs : FileSystem) (b : notify.Beeper)
    (title message icon appName : String) (w : notify.World) :
    (notify.Alert fs b title message icon appName w).2.reads = w.reads
    ∨ (notify.Alert fs b title message icon appName w).2.reads = w.reads ++ [icon] := by
  have h := (processIcon_effects fs icon (notify.setAppName appName w)).2.2
  have hs : (notify.setAppName appName w).reads = w.reads := by rw [setAppName_eq]
  rw [hs] at h
  cases hp : notify.processIcon fs icon (notify.setAppName appName w) with
  | mk res w2 =>
    rw [hp] at h
    cases res with
    | error e => simpa only [notify.Alert, hp] using h
    | ok d =>
      rw [(Alert_of_processIcon_ok fs b title message icon appName w w2 d hp).1]
      exact h

theorem atMostOneDelivery_of (w w2 : notify.World) (pre rest : List notify.Call)
    (icon : String)
    (hc : w2.calls = w.calls ++ pre ++ rest)
    (hpre : pre.filter Spec.isDelivery = [])
    (hrest : rest.length ≤ 1)
    (hr : w2.reads = w.reads ∨ w2.reads = w.reads ++ [icon]) :
    Spec.atMostOneDelivery w w2 := by
  rcases hr with hr | hr
  · refine ⟨pre ++ rest, [], by rw [hc, List.append_assoc], by rw [hr, List.append_nil], ?_,
      by simp⟩
    rw [List.filter_append, hpre, List.nil_append]
    exact le_trans (List.length_filter_le _ _) hrest
  · refine ⟨pre ++ rest, [icon], by rw [hc, List.append_assoc], hr, ?_, by simp⟩
    rw [List.filter_append, hpre, List.nil_append]
    exact le_trans (List.length_filter_le _ _) hrest

theorem setAppName_calls_no_delivery (appName : String) :
    (if appName ≠ "" then [notify.Call.SetAppName appName] else []).filter Spec.isDelivery
      = [] := by
  split <;> rfl

theorem Notify_atMostOneDelivery (fs : FileSystem) (b : notify.Beeper)
    (title message icon appName : String) (w : notify.World) :
    Spec.atMostOneDelivery w (notify.Notify fs b title message icon appName w).2 := by
  obtain ⟨rest, hc, hrest⟩ := Notify_calls fs b title message icon appName w
  refine atMostOneDelivery_of w _ _ rest icon hc (setAppName_calls_no_delivery appName) ?_
    (Notify_reads fs b title message icon appName w)
  rcases hrest with h | ⟨d, h⟩ <;> rw [h] <;> simp

theorem Alert_atMostOneDelivery (fs : FileSystem) (b : notify.Beeper)
    (title message icon appName : String) (w : notify.World) :
    Spec.atMostOneDelivery w (notify.Alert fs b title message icon appName w).2 := by
  obtain ⟨rest, hc, hrest⟩ := Alert_calls fs b title message icon appName w
  refine atMostOneDelivery_of w _ _ rest icon hc (setAppName_calls_no_delivery appName) ?_
    (Alert_reads fs b title message icon appName w)
  rcases hrest with h | ⟨d, h⟩ <;> rw [h] <;> simp

theorem atMostOneDelivery_refl (w : notify.World) : Spec.atMostOneDelivery w w :=
  ⟨[], [], by simp, by simp, by simp, by simp⟩

theorem Beep_world (b : notify.Beeper) (freq : Float64) (duration : Int)
    (w : notify.World) :
    (notify.Beep b freq duration w).2
      = { w with calls := w.calls ++ [.Beep freq duration] } := by
  unfold notify.Beep
  cases b.Beep w.calls freq duration <;> rfl

theorem RunE_atMostOneDelivery (env : cmd.Env) (cfg : config.Config)
    (args : List String) (w : notify.World) :
    Spec.atMostOneDelivery w (cmd.RunE env cfg args w).2 := by
  by_cases hv : cfg.Version = true
  · simp only [cmd.RunE, hv, if_true]
    exact ⟨[], [], by simp, by simp, by simp, by simp⟩
  · cases hval : config.Validate env.fs cfg with
    | some e =>
      simp only [cmd.RunE, hv, hval, if_false]
      exact atMostOneDelivery_refl w
    | none =>
      by_cases hb : cfg.BeepMode = true
      · simp only [cmd.RunE, hv, hval, hb, if_true, if_false]
        rw [Beep_world]
        exact ⟨[.Beep cfg.Frequency cfg.Duration], [], rfl, by simp,
          by simp [Spec.isDelivery], by simp⟩
      · cases args with
        | nil =>
          simp only [cmd.RunE, hv, hval, hb, if_false]
          exact atMostOneDelivery_refl w
        | cons title rest =>
          by_cases hm : cfg.AlertMode = true
          · simp only [cmd.RunE, hv, hval, hb, hm, if_true, if_false]
            exact Alert_atMostOneDelivery _ _ _ _ _ _ _
          · simp only [cmd.RunE, hv, hval, hb, hm, if_false]
            exact Notify_atMostOneDelivery _ _ _ _ _ _ _

/-- C23: for every configuration, argument list, filesystem and backend, one
run of the dispatcher adds to the calls made so far at most one delivery call
(Notify, Alert or Beep) and to the file reads at most one read. -/
theorem Execute_atMostOneDelivery (env : cmd.Env) (cfg : config.Config)
    (args : List String) (w : notify.World) :
    Spec.atMostOneDelivery w (cmd.Execute env cfg args w).2
    ∧ ((cmd.Execute env cfg args notify.World.init).2.calls.filter Spec.isDelivery).length
        ≤ 1
    ∧ (cmd.Execute env cfg args notify.World.init).2.reads.length ≤ 1 := by
  have h : ∀ w0, Spec.atMostOneDelivery w0 (cmd.Execute env cfg args w0).2 := by
    intro w0
    unfold cmd.Execute
    split
    · exact atMostOneDelivery_refl w0
    · exact RunE_atMostOneDelivery env cfg args w0
  refine ⟨h w, ?_, ?_⟩
  · obtain ⟨cs, rs, hc, _, hcs, _⟩ := h notify.World.init
    rw [hc]
    simpa [notify.World.init] using hcs
  · obtain ⟨cs, rs, _, hr, _, hrs⟩ := h notify.World.init
    rw [hr]
    simpa [notify.World.init] using hrs

/-! ## One classification for validation and payload resolution -/

theorem validateIcon_of_classifiedAsFile (fs : FileSystem) (c : config.Config)
    (h : Spec.classifiedAsFile fs c.Icon) :
    config.validateIcon fs c = config.validateIconFile fs c := by
  obtain ⟨_, hc⟩ := h
  unfold config.validateIcon
  by_cases ha : filepath_IsAbs c.Icon = true
  · rw [if_pos ha]
  · rw [if_neg ha]
    by_cases hd : filepath_Dir c.Icon ≠ "."
    · rw [if_pos hd]
    · rw [if_neg hd]
      rcases hc with h1 | h1 | h1
      · exact absurd h1 ha
      · exact absurd h1 hd
      · rw [if_pos h1]

theorem not_classifiedAsFile_iff (fs : FileSystem) (icon : String) :
    ¬ Spec.classifiedAsFile fs icon ↔
      (filepath_IsAbs icon = false ∧ filepath_Dir icon = "."
        ∧ ¬ (filepath_Ext icon ≠ "" ∧ fs.Stat icon = none)) := by
  unfold Spec.classifiedAsFile
  constructor
  · intro h
    by_cases h0 : icon = ""
    · subst h0
      exact ⟨by decide, by decide, fun hc => hc.1 (by decide)⟩
    · have h2 : ¬ (filepath_IsAbs icon = true ∨ filepath_Dir icon ≠ "."
          ∨ (filepath_Ext icon ≠ "" ∧ fs.Stat icon = none)) := fun hc => h ⟨h0, hc⟩
      refine ⟨?_, ?_, fun hc => h2 (Or.inr (Or.inr hc))⟩
      · cases ha : filepath_IsAbs icon
        · rfl
        · exact absurd (Or.inl ha) h2
      · by_contra hd
        exact h2 (Or.inr (Or.inl hd))
  · rintro ⟨ha, hd, he⟩ ⟨_, hc⟩
    rcases hc with h1 | h1 | h1
    · rw [ha] at h1; exact Bool.false_ne_true h1
    · exact h1 hd
    · exact he h1

theorem validateIcon_of_not_classifiedAsFile (fs : FileSystem) (c : config.Config)
    (h : ¬ Spec.classifiedAsFile fs c.Icon) :
    config.validateIcon fs c = none := by
  obtain ⟨ha, hd, he⟩ := (not_classifiedAsFile_iff fs c.Icon).mp h
  unfold config.validateIcon
  rw [ha, if_neg (by simp), if_neg (by simp [hd]), if_neg he]

theorem processIcon_of_not_classifiedAsFile (fs : FileSystem) (icon : String)
    (w : notify.World) (h : ¬ Spec.classifiedAsFile fs icon) :
    notify.processIcon fs icon w = (.ok (.str icon), w) := by
  obtain ⟨ha, hd, he⟩ := (not_classifiedAsFile_iff fs icon).mp h
  unfold notify.processIcon
  by_cases h0 : icon = ""
  · rw [if_pos h0, h0]
  · rw [if_neg h0, ha, if_neg (by simp), if_neg (by simp [hd]), if_neg he]

theorem readIconFile_reads (fs : FileSystem) (icon : String) (w : notify.World) :
    (notify.readIconFile fs icon w).2 = { w with reads := w.reads ++ [icon] }
    ∧ ((∃ data, fs.ReadFile icon = .ok data
          ∧ (notify.readIconFile fs icon w).1 = .ok (.bytes data))
      ∨ (∃ e, fs.ReadFile icon = .error e
          ∧ (notify.readIconFile fs icon w).1
            = .error (fmt_Errorf_w "cannot read icon file: " e))) := by
  unfold notify.readIconFile
  cases hr : fs.ReadFile icon with
  | ok data => exact ⟨rfl, Or.inl ⟨data, rfl, rfl⟩⟩
  | error e => exact ⟨rfl, Or.inr ⟨e, rfl, rfl⟩⟩

/-- C24: on one filesystem, `validateIcon` and `processIcon` branch on the same
classification of the token. When it is classified as a file, `validateIcon`
is the file check and `processIcon` reads the file, giving its bytes or the
read error, never a string; when it is not, `validateIcon` accepts it without
any check and `processIcon` gives the token back as a string without reading.
So `processIcon` reads the token exactly when `validateIcon` applies the file
checks to it. -/
theorem icon_classification_shared (fs : FileSystem) (c : config.Config)
    (w : notify.World) :
    (Spec.classifiedAsFile fs c.Icon →
      config.validateIcon fs c = config.validateIconFile fs c
      ∧ notify.processIcon fs c.Icon w = notify.readIconFile fs c.Icon w
      ∧ (notify.processIcon fs c.Icon w).2 = { w with reads := w.reads ++ [c.Icon] }
      ∧ ((∃ data, fs.ReadFile c.Icon = .ok data
            ∧ (notify.processIcon fs c.Icon w).1 = .ok (.bytes data))
        ∨ (∃ e, fs.ReadFile c.Icon = .error e
            ∧ (notify.processIcon fs c.Icon w).1
              = .error (fmt_Errorf_w "cannot read icon file: " e))))
    ∧ (¬ Spec.classifiedAsFile fs c.Icon →
      config.validateIcon fs c = none
      ∧ notify.processIcon fs c.Icon w = (.ok (.str c.Icon), w))
    ∧ ((notify.processIcon fs c.Icon w).2.reads = w.reads ++ [c.Icon]
        ↔ Spec.classifiedAsFile fs c.Icon) := by
  have h1 : Spec.classifiedAsFile fs c.Icon →
      (notify.processIcon fs c.Icon w).2 = { w with reads := w.reads ++ [c.Icon] } := by
    intro h
    rw [processIcon_of_classifiedAsFile fs c.Icon w h]
    exact (readIconFile_reads fs c.Icon w).1
  refine ⟨fun h => ⟨validateIcon_of_classifiedAsFile fs c h,
      processIcon_of_classifiedAsFile fs c.Icon w h, h1 h, ?_⟩,
    fun h => ⟨validateIcon_of_not_classifiedAsFile fs c h,
      processIcon_of_not_classifiedAsFile fs c.Icon w h⟩, ?_⟩
  · rw [processIcon_of_classifiedAsFile fs c.Icon w h]
    exact (readIconFile_reads fs c.Icon w).2
  · constructor
    · intro hr
      by_contra hn
      rw [processIcon_of_not_classifiedAsFile fs c.Icon w hn] at hr
      have := congrArg List.length hr
      simp at this
    · intro h
      rw [h1 h]

/-- C24 at a stock name, at a file that exists, and at a bare name with an
extension on a filesystem with and without a file of that name. -/
theorem icon_classification_shared_witness :
    (config.validateIcon Fixtures.fsEmpty { Fixtures.defaultConfig with Icon := "warning" }
        = none
      ∧ notify.processIcon Fixtures.fsEmpty "warning" notify.World.init
        = (.ok (.str "warning"), notify.World.init))
    ∧ (notify.processIcon (Fixtures.fsFiles [("alert.png", [1, 2])]) "alert.png"
          notify.World.init).2
        = ⟨[], ["alert.png"], []⟩
    ∧ (config.validateIcon Fixtures.fsEmpty { Fixtures.defaultConfig with Icon := "alert.png" }
        = none
      ∧ notify.processIcon Fixtures.fsEmpty "alert.png" notify.World.init
        = (.ok (.str "alert.png"), notify.World.init)) :=
  ⟨(icon_classification_shared Fixtures.fsEmpty
      { Fixtures.defaultConfig with Icon := "warning" } notify.World.init).2.1 (by decide),
    ((icon_classification_shared (Fixtures.fsFiles [("alert.png", [1, 2])])
      { Fixtures.defaultConfig with Icon := "alert.png" } notify.World.init).1
      (by decide)).2.2.1,
    (icon_classification_shared Fixtures.fsEmpty
      { Fixtures.defaultConfig with Icon := "alert.png" } notify.World.init).2.1
      (by decide)⟩

/-! ## Wrapping of backend errors -/

/-- C25: when the backend call fails with `e`, `notify.Notify` returns the error
that wraps `e` with the message "failed to send notification: " followed by the
message of `e`, `notify.Alert` the same with "failed to send alert: ", and
`notify.Beep` with "failed to beep: "; each of the three returns no error
exactly when the backend call returns none (for Notify and Alert, once the
icon payload is resolved). -/
theorem backend_error_wrapped (fs : FileSystem) (b : notify.Beeper)
    (title message icon appName : String) (w w2 : notify.World)
    (d : notify.IconData) (freq : Float64) (duration : Int) :
    (notify.processIcon fs icon (notify.setAppName appName w) = (.ok d, w2) →
      (∀ e, b.Notify w2.calls title message d = some e →
        ∃ err, (notify.Notify fs b title message icon appName w).1 = some err
          ∧ err.Error = "failed to send notification: " ++ e.Error
          ∧ err.Unwrap = some e)
      ∧ ((notify.Notify fs b title message icon appName w).1 = none
          ↔ b.Notify w2.calls title message d = none)
      ∧ (∀ e, b.Alert w2.calls title message d = some e →
        ∃ err, (notify.Alert fs b title message icon appName w).1 = some err
          ∧ err.Error = "failed to send alert: " ++ e.Error
          ∧ err.Unwrap = some e)
      ∧ ((notify.Alert fs b title message icon appName w).1 = none
          ↔ b.Alert w2.calls title message d = none))
    ∧ (∀ e, b.Beep w.calls freq duration = some e →
        ∃ err, (notify.Beep b freq duration w).1 = some err
          ∧ err.Error = "failed to beep: " ++ e.Error
          ∧ err.Unwrap = some e)
    ∧ ((notify.Beep b freq duration w).1 = none ↔ b.Beep w.calls freq duration = none) := by
  refine ⟨fun hp => ⟨?_, ?_, ?_, ?_⟩, ?_, ?_⟩
  · intro e he
    rw [(Notify_of_processIcon_ok fs b title message icon appName w w2 d hp).2, he]
    exact ⟨_, rfl, rfl, rfl⟩
  · rw [(Notify_of_processIcon_ok fs b title message icon appName w w2 d hp).2]
    cases b.Notify w2.calls title message d <;> simp
  · intro e he
    rw [(Alert_of_processIcon_ok fs b title message icon appName w w2 d hp).2, he]
    exact ⟨_, rfl, rfl, rfl⟩
  · rw [(Alert_of_processIcon_ok fs b title message icon appName w w2 d hp).2]
    cases b.Alert w2.calls title message d <;> simp
  · intro e he
    simp only [notify.Beep, he]
    exact ⟨_, rfl, rfl, rfl⟩
  · unfold notify.Beep
    cases b.Beep w.calls freq duration <;> simp

/-- C25 at the backend errors of the tests `TestNotify` ("notification failed")
and `TestAlert` ("alert failed"). -/
theorem backend_error_wrapped_witness :
    (∃ err, (notify.Notify Fixtures.fsEmpty
          (Fixtures.beeperFailing (errors_New "notification failed"))
          "Test Title" "Test Message" "" "" notify.World.init).1 = some err
        ∧ err.Error = "failed to send notification: "
            ++ (errors_New "notification failed").Error
        ∧ err.Unwrap = some (errors_New "notification failed"))
    ∧ (∃ err, (notify.Alert Fixtures.fsEmpty
          (Fixtures.beeperFailing (errors_New "alert failed"))
          "Alert Title" "Alert Message" "" "" notify.World.init).1 = some err
        ∧ err.Error = "failed to send alert: " ++ (errors_New "alert failed").Error
        ∧ err.Unwrap = some (errors_New "alert failed"))
    ∧ "failed to send notification: " ++ (errors_New "notification failed").Error
        = "failed to send notification: notification failed" :=
  ⟨((backend_error_wrapped Fixtures.fsEmpty
        (Fixtures.beeperFailing (errors_New "notification failed"))
        "Test Title" "Test Message" "" "" notify.World.init notify.World.init (.str "")
        Float64.c587 500).1 rfl).1 (errors_New "notification failed") rfl,
    ((backend_error_wrapped Fixtures.fsEmpty
        (Fixtures.beeperFailing (errors_New "alert failed"))
        "Alert Title" "Alert Message" "" "" notify.World.init notify.World.init (.str "")
        Float64.c587 500).1 rfl).2.2.1 (errors_New "alert failed") rfl,
    by decide⟩

/-! ## Failed payload resolution -/

/-- C26 (as stated, refuted): with the application name "TestApp" and an icon
path at which nothing exists, `notify.Notify` fails with "failed to process
icon: ..." after it has called the backend's `SetAppName`. -/
theorem SetAppName_called_before_icon_failure :
    notify.Notify Fixtures.fsEmpty Fixtures.beeperOk "Test" "Message"
        "/no/such/file.png" "TestApp" notify.World.init
      = (some (fmt_Errorf_w "failed to process icon: "
            (fmt_Errorf_w "cannot read icon file: "
              (errors_New "open /no/such/file.png: no such file or directory"))),
          ⟨[.SetAppName "TestApp"], ["/no/such/file.png"], []⟩)
    ∧ (notify.Notify Fixtures.fsEmpty Fixtures.beeperOk "Test" "Message"
        "/no/such/file.png" "TestApp" notify.World.init).2.calls ≠ [] := by
  decide

/-- C26 (amended): when payload resolution fails with `e`, `notify.Notify`
returns the error "failed to process icon: " followed by the message of `e`,
and makes no Notify, Alert or Beep call: the only backend call is
`SetAppName(appName)` when `appName` is not empty, and none at all when it is
empty. -/
theorem Notify_icon_failure (fs : FileSystem) (b : notify.Beeper)
    (title message icon appName : String) (w w2 : notify.World) (e : GoError)
    (hp : notify.processIcon fs icon (notify.setAppName appName w) = (.error e, w2)) :
    (notify.Notify fs b title message icon appName w).1
        = some (fmt_Errorf_w "failed to process icon: " e)
    ∧ (fmt_Errorf_w "failed to process icon: " e).Error
        = "failed to process icon: " ++ e.Error
    ∧ Spec.Occurs "failed to process icon" (fmt_Errorf_w "failed to process icon: " e).Error
    ∧ (notify.Notify fs b title message icon appName w).2.calls
        = w.calls ++ (if appName ≠ "" then [.SetAppName appName] else [])
    ∧ (appName = "" → (notify.Notify fs b title message icon appName w).2.calls = w.calls) := by
  have hc : w2.calls = w.calls ++ (if appName ≠ "" then [.SetAppName appName] else []) := by
    have h := (processIcon_effects fs icon (notify.setAppName appName w)).1
    rw [hp, setAppName_eq] at h
    exact h
  have hn : notify.Notify fs b title message icon appName w
      = (some (fmt_Errorf_w "failed to process icon: " e), w2) := by
    simp only [notify.Notify, hp]
  rw [hn]
  refine ⟨rfl, rfl, ?_, hc, fun h0 => ?_⟩
  · exact occurs_append_left "failed to process icon: " "failed to process icon" e.Error
      (by decide)
  · show w2.calls = w.calls
    rw [hc, if_neg (by simp [h0]), List.append_nil]

/-- C26 (amended) at the input of `TestNotifyWithInvalidIcon` (empty
application name, no call at all) and at the application name "TestApp". -/
theorem Notify_icon_failure_witness :
    (notify.Notify Fixtures.fsEmpty Fixtures.beeperOk "Test" "Message"
        "/tmp/t/nonexistent.png" "" notify.World.init).2.calls = []
    ∧ (notify.Notify Fixtures.fsEmpty Fixtures.beeperOk "Test" "Message"
        "/tmp/t/nonexistent.png" "TestApp" notify.World.init).2.calls
      = [.SetAppName "TestApp"]
    ∧ (notify.Notify Fixtures.fsEmpty Fixtures.beeperOk "Test" "Message"
        "/tmp/t/nonexistent.png" "" notify.World.init).1
      = some (fmt_Errorf_w "failed to process icon: "
          (fmt_Errorf_w "cannot read icon file: "
            (errors_New "open /tmp/t/nonexistent.png: no such file or directory"))) :=
  ⟨(Notify_icon_failure Fixtures.fsEmpty Fixtures.beeperOk "Test" "Message"
      "/tmp/t/nonexistent.png" "" notify.World.init ⟨[], ["/tmp/t/nonexistent.png"], []⟩
      (fmt_Errorf_w "cannot read icon file: "
        (errors_New "open /tmp/t/nonexistent.png: no such file or directory")) rfl).2.2.2.2 rfl,
    (Notify_icon_failure Fixtures.fsEmpty Fixtures.beeperOk "Test" "Message"
      "/tmp/t/nonexistent.png" "TestApp" notify.World.init
      ⟨[.SetAppName "TestApp"], ["/tmp/t/nonexistent.png"], []⟩
      (fmt_Errorf_w "cannot read icon file: "
        (errors_New "open /tmp/t/nonexistent.png: no such file or directory")) rfl).2.2.2.1,
    (Notify_icon_failure Fixtures.fsEmpty Fixtures.beeperOk "Test" "Message"
      "/tmp/t/nonexistent.png" "" notify.World.init ⟨[], ["/tmp/t/nonexistent.png"], []⟩
      (fmt_Errorf_w "cannot read icon file: "
        (errors_New "open /tmp/t/nonexistent.png: no such file or directory")) rfl).1⟩

/-! ## The quiet flag -/

/-- The run of the command does not read the field `Quiet`. -/
theorem Execute_quiet_irrelevant (env : cmd.Env) (cfg : config.Config)
    (args : List String) (w : notify.World) (q : Bool) :
    cmd.Execute env { cfg with Quiet := q } args w = cmd.Execute env cfg args w := rfl

/-- Two configurations that differ only in `Quiet` give, on the same arguments,
filesystem and backend, the same run of the command (same backend calls, same
reads, same returned error), the same exit code and the same final world. -/
theorem main_quiet_noninterference (env : cmd.Env) (cfg : config.Config)
    (args : List String) (w : notify.World) (q : Bool) :
    cmd.Execute env { cfg with Quiet := q } args w = cmd.Execute env cfg args w
    ∧ (main.main env { cfg with Quiet := q } args w).1.code = (main.main env cfg args w).1.code
    ∧ (main.main env { cfg with Quiet := q } args w).2 = (main.main env cfg args w).2 := by
  have hq := Execute_quiet_irrelevant env cfg args w q
  refine ⟨hq, ?_, ?_⟩
  · unfold main.main
    rw [hq]
    rcases cmd.Execute env cfg args w with ⟨(_ | _) | _, w1⟩ <;> rfl
  · unfold main.main
    rw [hq]
    rcases cmd.Execute env cfg args w with ⟨(_ | _) | _, w1⟩ <;> rfl

/-- Standard error after a failed run: the line "Error: <message>" and the
usage text written by `rootCmd.Execute()`, then the same line once more from
`main` when `Quiet` is false. After a successful run nothing is written. -/
theorem main_stderr (env : cmd.Env) (cfg : config.Config)
    (args : List String) (w : notify.World) :
    (∀ err, (cmd.Execute env cfg args w).1 = .returned (some err) →
      (main.main env cfg args w).1
        = ⟨main.getExitCode (some err),
            [.text ("Error: " ++ err.Error ++ "\n"), .usage]
              ++ (if cfg.Quiet = false then [.text ("Error: " ++ err.Error ++ "\n")]
                  else [])⟩)
    ∧ ((cmd.Execute env cfg args w).1 = .returned none →
        (main.main env cfg args w).1 = ⟨0, []⟩) := by
  constructor
  · intro err he
    unfold main.main
    rcases hx : cmd.Execute env cfg args w with ⟨o, w1⟩
    rw [hx] at he
    cases he
    cases hqq : cfg.Quiet <;> simp [cmd.IsQuietMode, cmd.reportError, hqq]
  · intro he
    unfold main.main
    rcases hx : cmd.Execute env cfg args w with ⟨o, w1⟩
    rw [hx] at he
    cases he
    rfl

/-- C27 (the code at the failing input): in beep mode with frequency -100 and
`Quiet` true the run fails with exit code 2 and the line
"Error: invalid configuration: frequency must be positive" is on standard
error all the same, followed by the usage text: `rootCmd.Execute()` has
written both before `main` consults `IsQuietMode`. With `Quiet` false the line
is there twice. The backend calls, the returned error and the exit code are
the same for both values of `Quiet`. -/
theorem quiet_does_not_suppress_error_line :
    cmd.IsQuietMode
        { Fixtures.defaultConfig with
            BeepMode := true, Frequency := Float64.cNeg100, Quiet := true } = true
    ∧ main.main (Fixtures.envEmpty Fixtures.beeperOk)
        { Fixtures.defaultConfig with
            BeepMode := true, Frequency := Float64.cNeg100, Quiet := true }
        [] notify.World.init
      = (⟨2, [.text "Error: invalid configuration: frequency must be positive\n", .usage]⟩,
          notify.World.init)
    ∧ main.main (Fixtures.envEmpty Fixtures.beeperOk)
        { Fixtures.defaultConfig with BeepMode := true, Frequency := Float64.cNeg100 }
        [] notify.World.init
      = (⟨2, [.text "Error: invalid configuration: frequency must be positive\n", .usage,
              .text "Error: invalid configuration: frequency must be positive\n"]⟩,
          notify.World.init)
    ∧ cmd.Execute (Fixtures.envEmpty Fixtures.beeperOk)
        { Fixtures.defaultConfig with
            BeepMode := true, Frequency := Float64.cNeg100, Quiet := true }
        [] notify.World.init
      = cmd.Execute (Fixtures.envEmpty Fixtures.beeperOk)
        { Fixtures.defaultConfig with BeepMode := true, Frequency := Float64.cNeg100 }
        [] notify.World.init := by
  decide

/-! ## Supported formats -/

theorem formatLoop_iff (ext : String) (l : List String) :
    notify.formatLoop ext l = true ↔ ext ∈ l := by
  induction l with
  | nil => simp [notify.formatLoop]
  | cons f rest ih =>
    unfold notify.formatLoop
    by_cases h : ext = f
    · simp [h]
    · simp [h, ih]

/-- C28: `IsValidIconFormat(ext)` is true exactly when `ext` is an element of
`GetSupportedFormats()`, which is the list .png, .jpg, .jpeg, .ico, .bmp in
that order; the comparison is string equality, so ".PNG", ".gif" and "" are
rejected. -/
theorem IsValidIconFormat_iff :
    (∀ ext, notify.IsValidIconFormat ext = true ↔ ext ∈ notify.GetSupportedFormats)
    ∧ notify.GetSupportedFormats = [".png", ".jpg", ".jpeg", ".ico", ".bmp"]
    ∧ notify.IsValidIconFormat ".png" = true
    ∧ notify.IsValidIconFormat ".bmp" = true
    ∧ notify.IsValidIconFormat ".PNG" = false
    ∧ notify.IsValidIconFormat ".gif" = false
    ∧ notify.IsValidIconFormat "" = false :=
  ⟨fun ext => formatLoop_iff ext notify.GetSupportedFormats, rfl, by decide, by decide,
    by decide, by decide, by decide⟩

/-! ## The title access -/

/-- The argument lists that `rootCmd.Args` accepts outside version and beep
mode have one or two elements. -/
theorem Args_none_length (cfg : config.Config) (args : List String)
    (hv : cfg.Version = false) (hb : cfg.BeepMode = false)
    (ha : cmd.Args cfg args = none) : args.length = 1 ∨ args.length = 2 := by
  rw [Args_eq, if_neg (by simp [hv, hb])] at ha
  by_cases h0 : args.length = 0
  · rw [if_pos h0] at ha; exact absurd ha (by simp)
  · rw [if_neg h0] at ha
    by_cases h2 : 2 < args.length
    · rw [if_pos h2] at ha; exact absurd ha (by simp)
    · omega

/-- C29: the run never panics on `args[0]`: when the argument check has passed
with `Version` and `BeepMode` false the list has one or two elements, so
`args[0]` exists and the guard `len(args) > 1` of the read of `args[1]` holds
exactly when the length is two; hence `Execute` returns for every
configuration and argument list. The step `RunE` alone, entered with no
argument, would panic. -/
theorem title_access_in_range (env : cmd.Env) (cfg : config.Config)
    (args : List String) (w : notify.World) :
    (cfg.Version = false → cfg.BeepMode = false → cmd.Args cfg args = none →
      (args.length = 1 ∨ args.length = 2)
      ∧ (∃ title rest, args = title :: rest)
      ∧ (args.length > 1 ↔ args.length = 2))
    ∧ (∃ err, (cmd.Execute env cfg args w).1 = .returned err)
    ∧ (cfg.Version = false → cfg.BeepMode = false → config.Validate env.fs cfg = none →
        (cmd.RunE env cfg [] w).1 = .panicked "runtime error: index out of range [0] with length 0") := by
  refine ⟨fun hv hb ha => ?_, ?_, fun hv hb hval => ?_⟩
  · have hl := Args_none_length cfg args hv hb ha
    refine ⟨hl, ?_, by omega⟩
    cases args with
    | nil => simp at hl
    | cons t r => exact ⟨t, r, rfl⟩
  · cases ha : cmd.Args cfg args with
    | some a => exact ⟨some a, by simp only [cmd.Execute, ha]⟩
    | none =>
      have he : cmd.Execute env cfg args w = cmd.RunE env cfg args w := by
        simp only [cmd.Execute, ha]
      rw [he]
      cases hv : cfg.Version with
      | true =>
        simp only [cmd.RunE, hv, if_true]
        exact ⟨_, rfl⟩
      | false =>
        cases hval : config.Validate env.fs cfg with
        | some e =>
          simp only [cmd.RunE, hv, hval, Bool.false_eq_true, if_false]
          exact ⟨_, rfl⟩
        | none =>
          cases hb : cfg.BeepMode with
          | true =>
            simp only [cmd.RunE, hv, hval, hb, Bool.false_eq_true, if_false, if_true]
            exact ⟨_, rfl⟩
          | false =>
            have hl := Args_none_length cfg args hv hb ha
            cases args with
            | nil => simp at hl
            | cons title rest =>
              cases hm : cfg.AlertMode with
              | true =>
                simp only [cmd.RunE, hv, hval, hb, hm, Bool.false_eq_true, if_false, if_true]
                exact ⟨_, rfl⟩
              | false =>
                simp only [cmd.RunE, hv, hval, hb, hm, Bool.false_eq_true, if_false]
                exact ⟨_, rfl⟩
  · simp only [cmd.RunE, hv, hval, hb, Bool.false_eq_true, if_false]

/-- C29 at one and two arguments with the default configuration, and at `RunE`
entered without the argument check. -/
theorem title_access_in_range_witness :
    (([("Just Title" : String)].length = 1 ∨ [("Just Title" : String)].length = 2)
      ∧ (∃ title rest, [("Just Title" : String)] = title :: rest)
      ∧ ([("Just Title" : String)].length > 1 ↔ [("Just Title" : String)].length = 2))
    ∧ (cmd.RunE (Fixtures.envEmpty Fixtures.beeperOk) Fixtures.defaultConfig []
        notify.World.init).1 = .panicked "runtime error: index out of range [0] with length 0" :=
  ⟨(title_access_in_range (Fixtures.envEmpty Fixtures.beeperOk) Fixtures.defaultConfig
      ["Just Title"] notify.World.init).1 rfl rfl (by decide),
    (title_access_in_range (Fixtures.envEmpty Fixtures.beeperOk) Fixtures.defaultConfig
      ["Just Title"] notify.World.init).2.2 rfl rfl (by decide)⟩

/-! ## Range of the exit code -/

/-- C30: `getExitCode` returns 0 exactly for the nil error; for every non-nil
error, the one with the empty message included, it returns 1, 2 or 3; so the
result is always one of 0, 1, 2, 3. -/
theorem getExitCode_range :
    (∀ err, main.getExitCode err = 0 ↔ err = none)
    ∧ (∀ e, main.getExitCode (some e) = 1 ∨ main.getExitCode (some e) = 2
        ∨ main.getExitCode (some e) = 3)
    ∧ (∀ err, main.getExitCode err ∈ ({0, 1, 2, 3} : Set Int))
    ∧ main.getExitCode (some (errors_New "")) = 1 := by
  have h : ∀ e, main.getExitCode (some e) = 1 ∨ main.getExitCode (some e) = 2
      ∨ main.getExitCode (some e) = 3 := by
    intro e
    rw [getExitCode_some]
    split
    · exact Or.inr (Or.inl rfl)
    · split
      · exact Or.inr (Or.inr rfl)
      · exact Or.inl rfl
  refine ⟨fun err => ?_, h, fun err => ?_, by decide⟩
  · cases err with
    | none => exact ⟨fun _ => rfl, fun _ => rfl⟩
    | some e =>
      constructor
      · intro h0
        rcases h e with h1 | h1 | h1 <;> rw [h1] at h0 <;> exact absurd h0 (by decide)
      · intro h0
        exact absurd h0 (by simp)
  · cases err with
    | none => left; rfl
    | some e =>
      rcases h e with h1 | h1 | h1 <;> rw [h1] <;> simp

/-! ## Validation does not depend on the single mode -/

/-- The icon check reads no field but `Icon`. -/
theorem validateIcon_modes_irrelevant (fs : FileSystem) (c : config.Config) (a b : Bool) :
    config.validateIcon fs { c with AlertMode := a, BeepMode := b }
      = config.validateIcon fs c := rfl

/-- C31: for every configuration whose two modes are not both set, and every
filesystem, `Validate` returns what it returns for the same configuration with
both modes cleared; so in beep mode a failing icon token is rejected with the
icon error, and in notification or alert mode a non-positive frequency or
duration is rejected with its error. -/
theorem Validate_single_mode_irrelevant (fs : FileSystem) (c : config.Config)
    (hm : ¬ (c.AlertMode = true ∧ c.BeepMode = true)) :
    config.Validate fs c
        = config.Validate fs { c with AlertMode := false, BeepMode := false }
    ∧ (∀ e, c.BeepMode = true → c.Icon ≠ "" → config.validateIcon fs c = some e →
        config.Validate fs c = some e)
    ∧ (c.BeepMode = false → (c.Icon = "" ∨ config.validateIcon fs c = none) →
        c.Frequency.leZero = true →
        config.Validate fs c = some (errors_New "frequency must be positive"))
    ∧ (c.BeepMode = false → (c.Icon = "" ∨ config.validateIcon fs c = none) →
        c.Frequency.gtZero = true → c.Duration ≤ 0 →
        config.Validate fs c = some (errors_New "duration must be positive")) := by
  refine ⟨?_, fun e _ hi he => ?_, fun _ hi hf => ?_, fun _ hi hf hd => ?_⟩
  · have h2 : config.Validate fs { c with AlertMode := false, BeepMode := false }
        = (if c.Icon ≠ "" ∧ (config.validateIcon fs c).isSome then config.validateIcon fs c
          else if c.Frequency.leZero = true then
            some (errors_New "frequency must be positive")
          else if c.Duration ≤ 0 then some (errors_New "duration must be positive")
          else none) := by
      rw [Validate_decision_list]
      exact if_neg (by simp)
    rw [h2, Validate_decision_list fs c, if_neg hm]
  · rw [Validate_decision_list, if_neg hm, if_pos ⟨hi, by rw [he]; rfl⟩, he]
  · rw [Validate_of_checks_1_2 fs c hm hi, if_pos hf]
  · rw [Validate_of_checks_1_2 fs c hm hi,
      if_neg (by rw [Float64.leZero_of_gtZero _ hf]; simp), if_pos hd]

/-- C31 at beep mode with a missing icon file (rejected, and the run makes no
`Beep` call), and at alert mode with frequency -100 and with duration 0. -/
theorem Validate_single_mode_irrelevant_witness :
    config.Validate Fixtures.fsEmpty
        { Fixtures.defaultConfig with BeepMode := true, Icon := "/no/such/file.png" }
      = config.Validate Fixtures.fsEmpty
        { Fixtures.defaultConfig with Icon := "/no/such/file.png" }
    ∧ config.Validate Fixtures.fsEmpty
        { Fixtures.defaultConfig with BeepMode := true, Icon := "/no/such/file.png" }
      = some (errors_New "icon file does not exist: /no/such/file.png")
    ∧ config.Validate Fixtures.fsEmpty
        { Fixtures.defaultConfig with AlertMode := true, Frequency := Float64.cNeg100 }
      = some (errors_New "frequency must be positive")
    ∧ config.Validate Fixtures.fsEmpty
        { Fixtures.defaultConfig with AlertMode := true, Duration := 0 }
      = some (errors_New "duration must be positive")
    ∧ cmd.Execute (Fixtures.envEmpty Fixtures.beeperOk)
        { Fixtures.defaultConfig with BeepMode := true, Icon := "/no/such/file.png" }
        [] notify.World.init
      = (.returned (some (fmt_Errorf_w "invalid configuration: "
          (errors_New "icon file does not exist: /no/such/file.png"))),
          notify.World.init) :=
  ⟨(Validate_single_mode_irrelevant Fixtures.fsEmpty
      { Fixtures.defaultConfig with BeepMode := true, Icon := "/no/such/file.png" }
      (by decide)).1,
    (Validate_single_mode_irrelevant Fixtures.fsEmpty
      { Fixtures.defaultConfig with BeepMode := true, Icon := "/no/such/file.png" }
      (by decide)).2.1 _ rfl (by decide) (by decide),
    (Validate_single_mode_irrelevant Fixtures.fsEmpty
      { Fixtures.defaultConfig with AlertMode := true, Frequency := Float64.cNeg100 }
      (by decide)).2.2.1 rfl (Or.inl rfl) (by decide),
    (Validate_single_mode_irrelevant Fixtures.fsEmpty
      { Fixtures.defaultConfig with AlertMode := true, Duration := 0 }
      (by decide)).2.2.2 rfl (Or.inl rfl) (by decide) (by decide),
    by decide⟩

/-! ## The three copies of the supported extensions -/

theorem iconFormatSwitch_iff (ext : String) :
    config.iconFormatSwitch ext = true ↔ Spec.supportedExt ext := by
  unfold config.iconFormatSwitch
  rw [supportedExt_iff]
  split <;> simp_all

/-- The file check of `validateIconFile` on a path that `os.Stat` finds is the
switch on the extension of the path. -/
theorem validateIconFile_eq_switch (fs : FileSystem) (c : config.Config)
    (hs : fs.Stat c.Icon = none) :
    config.validateIconFile fs c =
      if config.iconFormatSwitch (filepath_Ext c.Icon) = true then none
      else some (errors_New ("unsupported icon format: " ++ filepath_Ext c.Icon
        ++ " (supported: .png, .jpg, .jpeg, .ico, .bmp)")) := by
  rw [validateIconFile_of_exists fs c hs]
  by_cases h : Spec.supportedExt (filepath_Ext c.Icon)
  · rw [if_pos h, if_pos ((iconFormatSwitch_iff _).mpr h)]
  · rw [if_neg h, if_neg (fun h2 => h ((iconFormatSwitch_iff _).mp h2))]

/-- C32: for every extension string the switch of `validateIconFile` accepts it
exactly when `notify.IsValidIconFormat` is true for it, and exactly when it is
an element of `testdata.SupportedIconFormats()`; no element of
`testdata.UnsupportedIconFormats()` is accepted by either. On a path that
`os.Stat` finds, `validateIconFile` succeeds exactly when the switch accepts
the extension of the path. -/
theorem supported_extensions_agree (fs : FileSystem) (c : config.Config) (ext : String) :
    (config.iconFormatSwitch ext = true ↔ notify.IsValidIconFormat ext = true)
    ∧ (notify.IsValidIconFormat ext = true ↔ ext ∈ testdata.SupportedIconFormats)
    ∧ (config.iconFormatSwitch ext = true ↔ ext ∈ testdata.SupportedIconFormats)
    ∧ (ext ∈ testdata.UnsupportedIconFormats →
        config.iconFormatSwitch ext = false ∧ notify.IsValidIconFormat ext = false
        ∧ ext ∉ testdata.SupportedIconFormats)
    ∧ (fs.Stat c.Icon = none →
        (config.validateIconFile fs c = none
          ↔ config.iconFormatSwitch (filepath_Ext c.Icon) = true)) := by
  have h1 : notify.IsValidIconFormat ext = true ↔ ext ∈ testdata.SupportedIconFormats :=
    formatLoop_iff ext notify.GetSupportedFormats
  have h2 : config.iconFormatSwitch ext = true ↔ ext ∈ testdata.SupportedIconFormats :=
    iconFormatSwitch_iff ext
  refine ⟨h2.trans h1.symm, h1, h2, fun hu => ?_, fun hs => ?_⟩
  · have hn : ext ∉ testdata.SupportedIconFormats := by
      simp only [testdata.UnsupportedIconFormats, List.mem_cons, List.mem_singleton,
        List.not_mem_nil, or_false] at hu
      rcases hu with h | h | h | h | h <;> rw [h] <;> decide
    refine ⟨?_, ?_, hn⟩
    · cases hsw : config.iconFormatSwitch ext
      · rfl
      · exact absurd (h2.mp hsw) hn
    · cases hv : notify.IsValidIconFormat ext
      · rfl
      · exact absurd (h1.mp hv) hn
  · rw [validateIconFile_eq_switch fs c hs]
    split
    · rename_i h; exact ⟨fun _ => h, fun _ => rfl⟩
    · rename_i h; exact ⟨fun h0 => absurd h0 (by simp), fun h0 => absurd h0 h⟩

/-- C32 at ".gif" (unsupported, rejected by both), and at an existing file
"test.png" accepted and an existing file "test.webp" rejected by
`validateIconFile`. -/
theorem supported_extensions_agree_witness :
    (config.iconFormatSwitch ".gif" = false ∧ notify.IsValidIconFormat ".gif" = false
      ∧ ".gif" ∉ testdata.SupportedIconFormats)
    ∧ (config.validateIconFile
          (Fixtures.fsFiles [("/tmp/t/test.png", [1]), ("/tmp/t/test.webp", [2])])
          { Fixtures.defaultConfig with Icon := "/tmp/t/test.png" } = none
        ↔ config.iconFormatSwitch (filepath_Ext "/tmp/t/test.png") = true)
    ∧ config.validateIconFile
        (Fixtures.fsFiles [("/tmp/t/test.png", [1]), ("/tmp/t/test.webp", [2])])
        { Fixtures.defaultConfig with Icon := "/tmp/t/test.png" } = none
    ∧ config.validateIconFile
        (Fixtures.fsFiles [("/tmp/t/test.png", [1]), ("/tmp/t/test.webp", [2])])
        { Fixtures.defaultConfig with Icon := "/tmp/t/test.webp" }
      = some (errors_New
          "unsupported icon format: .webp (supported: .png, .jpg, .jpeg, .ico, .bmp)") :=
  ⟨(supported_extensions_agree Fixtures.fsEmpty Fixtures.defaultConfig ".gif").2.2.2.1
      (by decide),
    (supported_extensions_agree
      (Fixtures.fsFiles [("/tmp/t/test.png", [1]), ("/tmp/t/test.webp", [2])])
      { Fixtures.defaultConfig with Icon := "/tmp/t/test.png" } ".png").2.2.2.2 (by decide),
    by decide, by decide⟩
